import Mathlib

/-!
# Verification of the LearnSmart instructor analytics engine

Shallow embedding of the analytics aggregation and classification logic of
the instructor analytics API routes
(`app/api/instructor/analytics/{ai-insights-detailed,study-techniques-detailed,export-report}/route.ts`),
together with theorems settling the behavioural claims about that logic.

Modelling conventions:
* numbers are embedded as `ℚ` (scores, rates, confidences) or `ℤ`/`ℕ`
  (counts, rounded percentages); `Math.round` becomes `jsRound`;
* a possibly-absent (`undefined`/`null`) field is an `Option`;
* the JS `x || d` default on a numeric field is `jsOrZ`/`jsOrQ`
  (`0` is falsy in JS, so it is replaced by the default as well);
* a JS object used as a dictionary with string keys is an association list
  in insertion order (`jsLookup` / `jsObjUpsert`); a JS `Set` is a
  duplicate-free list in insertion order (`setAdd`);
* `Array.prototype.sort` (stable since ES2019) is `List.mergeSort` with the
  comparator translated to its `cmp a b ≤ 0` relation;
* calendar dates are day numbers (`ℤ`): the code compares dates only through
  the `YYYY-MM-DD` prefix of ISO timestamps, which is day-level equality.
-/

namespace LearnSmart

/-- `Math.round x` in JavaScript: floor of `x + 1/2` (halves round up). -/
def jsRound (q : ℚ) : ℤ := ⌊q + 1/2⌋

/-- `x || d` for an optional integer field: JS replaces `undefined`/`null`
and the falsy value `0` by the default. -/
def jsOrZ (o : Option ℤ) (d : ℤ) : ℤ :=
  match o with
  | Option.none => d
  | some v => if v = 0 then d else v

/-- `x || d` for an optional rational field (same falsiness rule). -/
def jsOrQ (o : Option ℚ) (d : ℚ) : ℚ :=
  match o with
  | Option.none => d
  | some v => if v = 0 then d else v

/-- `set.add x` on a JS `Set` represented as a duplicate-free list in
insertion order. -/
def setAdd (s : List String) (x : String) : List String :=
  if x ∈ s then s else s ++ [x]

/-! ## JS objects used as dictionaries

All three routes build dictionaries with the pattern
`if (!obj[k]) { obj[k] = init } ; update obj[k]`.  We embed such an object as
an association list in insertion order: an update rewrites the value in
place, a fresh key is appended at the end. -/

/-- `obj[k]` on an association list. -/
def jsLookup {K V : Type} [DecidableEq K] (m : List (K × V)) (k : K) : Option V :=
  match m with
  | [] => Option.none
  | (k', v) :: rest => if k' = k then some v else jsLookup rest k

/-- One `if (!obj[k]) { obj[k] = ... } ; mutate obj[k]` step: `f` receives the
current binding (`none` when the key is fresh) and produces the new value. -/
def jsObjUpsert {K V : Type} [DecidableEq K] (m : List (K × V)) (k : K)
    (f : Option V → V) : List (K × V) :=
  if (jsLookup m k).isSome then
    m.map (fun p => if p.1 = k then (p.1, f (some p.2)) else p)
  else
    m ++ [(k, f Option.none)]

/-- Grouping a list into a JS object keyed by `key`, one upsert per element. -/
def jsGroupBy {α K V : Type} [DecidableEq K] (key : α → K)
    (step : α → Option V → V) (l : List α) : List (K × V) :=
  l.foldl (fun m x => jsObjUpsert m (key x) (step x)) []

section JsObjLemmas

variable {K V : Type} [DecidableEq K]

theorem jsLookup_eq_none_iff (m : List (K × V)) (k : K) :
    jsLookup m k = Option.none ↔ k ∉ m.map Prod.fst := by
  induction m with
  | nil => simp [jsLookup]
  | cons p rest ih =>
    obtain ⟨k', v⟩ := p
    by_cases h : k' = k <;> simp [jsLookup, h, ih, Ne.symm]

theorem jsLookup_append (m l : List (K × V)) (k : K) :
    jsLookup (m ++ l) k =
      match jsLookup m k with
      | some v => some v
      | Option.none => jsLookup l k := by
  induction m with
  | nil => simp [jsLookup]
  | cons p rest ih =>
    obtain ⟨k', v⟩ := p
    by_cases h : k' = k <;> simp [jsLookup, h, ih]

theorem jsLookup_mapUpdate (m : List (K × V)) (k k' : K) (g : V → V) :
    jsLookup (m.map (fun p => if p.1 = k then (p.1, g p.2) else p)) k' =
      if k' = k then (jsLookup m k).map g else jsLookup m k' := by
  induction m with
  | nil => simp [jsLookup]
  | cons p rest ih =>
    obtain ⟨k₀, v⟩ := p
    dsimp only [List.map_cons]
    by_cases h0 : k₀ = k
    · subst h0
      rw [if_pos rfl]
      by_cases h1 : k' = k₀
      · subst h1; simp [jsLookup]
      · have h1' : ¬ k₀ = k' := fun e => h1 e.symm
        simp [jsLookup, h1, h1', ih]
    · rw [if_neg h0]
      by_cases h1 : k₀ = k'
      · subst h1
        simp [jsLookup, h0, ih]
      · simp [jsLookup, h0, h1, ih]

theorem jsLookup_upsert_self (m : List (K × V)) (k : K) (f : Option V → V) :
    jsLookup (jsObjUpsert m k f) k = some (f (jsLookup m k)) := by
  unfold jsObjUpsert
  by_cases h : (jsLookup m k).isSome
  · obtain ⟨v, hv⟩ := Option.isSome_iff_exists.mp h
    rw [if_pos h]
    have hmu := jsLookup_mapUpdate m k k (fun x => f (some x))
    rw [if_pos rfl, hv] at hmu
    rw [hmu, hv]
    simp
  · rw [if_neg h]
    have hnone : jsLookup m k = Option.none := Option.not_isSome_iff_eq_none.mp h
    rw [jsLookup_append, hnone]
    simp [jsLookup]

theorem jsLookup_upsert_ne (m : List (K × V)) (k k' : K) (f : Option V → V)
    (h : k' ≠ k) : jsLookup (jsObjUpsert m k f) k' = jsLookup m k' := by
  unfold jsObjUpsert
  by_cases hs : (jsLookup m k).isSome
  · rw [if_pos hs]
    have := jsLookup_mapUpdate m k k' (fun x => f (some x))
    rwa [if_neg h] at this
  · rw [if_neg hs, jsLookup_append]
    cases hm : jsLookup m k' with
    | none =>
      have h' : ¬ k = k' := fun e => h e.symm
      simp [jsLookup, h']
    | some v => rfl

/-- Keys of an upsert: unchanged on update, the fresh key appended otherwise. -/
theorem keys_upsert (m : List (K × V)) (k : K) (f : Option V → V) :
    (jsObjUpsert m k f).map Prod.fst =
      if (jsLookup m k).isSome then m.map Prod.fst else m.map Prod.fst ++ [k] := by
  unfold jsObjUpsert
  by_cases h : (jsLookup m k).isSome
  · rw [if_pos h, if_pos h, List.map_map]
    congr 1
    funext p
    by_cases hp : p.1 = k <;> simp [hp]
  · rw [if_neg h, if_neg h]
    simp

/-- Upserting preserves duplicate-freeness of the key list. -/
theorem nodup_keys_upsert (m : List (K × V)) (k : K) (f : Option V → V)
    (h : (m.map Prod.fst).Nodup) : ((jsObjUpsert m k f).map Prod.fst).Nodup := by
  rw [keys_upsert]
  by_cases hs : (jsLookup m k).isSome
  · rwa [if_pos hs]
  · rw [if_neg hs]
    have : k ∉ m.map Prod.fst :=
      (jsLookup_eq_none_iff m k).mp (Option.not_isSome_iff_eq_none.mp hs)
    simp [List.nodup_append, h, this]

/-- A value stored under a duplicate-free key list is recovered by lookup. -/
theorem jsLookup_of_mem (m : List (K × V)) (k : K) (v : V)
    (hnd : (m.map Prod.fst).Nodup) (hmem : (k, v) ∈ m) :
    jsLookup m k = some v := by
  induction m with
  | nil => simp at hmem
  | cons p rest ih =>
    obtain ⟨k₀, v₀⟩ := p
    simp only [List.map_cons, List.nodup_cons] at hnd
    rcases List.mem_cons.mp hmem with h | h
    · cases h; simp [jsLookup]
    · have hk : k₀ ≠ k := by
        rintro rfl
        exact hnd.1 (List.mem_map_of_mem Prod.fst h)
      simp [jsLookup, hk, ih hnd.2 h]

theorem mem_of_jsLookup (m : List (K × V)) (k : K) (v : V)
    (h : jsLookup m k = some v) : (k, v) ∈ m := by
  induction m with
  | nil => simp [jsLookup] at h
  | cons p rest ih =>
    obtain ⟨k₀, v₀⟩ := p
    by_cases hk : k₀ = k
    · subst hk
      simp only [jsLookup, eq_self_iff_true, if_true, Option.some.injEq] at h
      subst h
      exact List.mem_cons_self _ _
    · simp only [jsLookup, hk, if_false] at h
      exact List.mem_cons_of_mem _ (ih h)

end JsObjLemmas

section JsGroupByLemmas

variable {α K V : Type} [DecidableEq K]

/-- The binding of `k` after grouping is the fold of the step function over
exactly the elements keyed `k`, in order. -/
theorem jsLookup_groupBy (key : α → K) (step : α → Option V → V)
    (l : List α) (k : K) :
    jsLookup (jsGroupBy key step l) k =
      (l.filter (fun x => key x = k)).foldl (fun o x => some (step x o))
        Option.none := by
  suffices h : ∀ (m : List (K × V)),
      jsLookup (l.foldl (fun m x => jsObjUpsert m (key x) (step x)) m) k =
        (l.filter (fun x => key x = k)).foldl (fun o x => some (step x o))
          (jsLookup m k) by
    simpa [jsGroupBy, jsLookup] using h []
  induction l with
  | nil => intro m; simp
  | cons x t ih =>
    intro m
    by_cases hx : key x = k
    · have hfix : jsLookup (jsObjUpsert m (key x) (step x)) k =
          some (step x (jsLookup m k)) := by
        rw [← hx]; exact jsLookup_upsert_self m (key x) (step x)
      rw [List.foldl_cons, ih, hfix,
        List.filter_cons_of_pos (by simpa using hx), List.foldl_cons]
    · have hne : k ≠ key x := fun e => hx e.symm
      rw [List.foldl_cons, ih, jsLookup_upsert_ne _ _ _ _ hne,
        List.filter_cons_of_neg (by simpa using hx)]

/-- A key is bound in the grouped object iff some element carries it. -/
theorem jsLookup_groupBy_isSome (key : α → K) (step : α → Option V → V)
    (l : List α) (k : K) :
    (jsLookup (jsGroupBy key step l) k).isSome ↔ ∃ x ∈ l, key x = k := by
  rw [jsLookup_groupBy]
  rcases hf : l.filter (fun x => key x = k) with _ | ⟨y, t⟩
  · have : ∀ x ∈ l, ¬ key x = k := by
      intro x hx hk
      have : x ∈ l.filter (fun x => key x = k) := by
        simp [List.mem_filter, hx, hk]
      simp [hf] at this
    simp only [List.foldl_nil, Option.isSome_none]
    constructor
    · intro h; simp at h
    · rintro ⟨x, hx, hk⟩; exact absurd hk (this x hx)
  · have hy : y ∈ l.filter (fun x => key x = k) := by simp [hf]
    have ⟨hyl, hyk⟩ := List.mem_filter.mp hy
    constructor
    · intro _; exact ⟨y, hyl, by simpa using hyk⟩
    · intro _
      have : ∀ (t' : List α) (o : V),
          (t'.foldl (fun o x => some (step x o)) (some o)).isSome := by
        intro t'
        induction t' with
        | nil => simp
        | cons a t'' ih => intro o; simpa using ih (step a o)
      simpa using this t (step y Option.none)

/-- Group keys are duplicate-free. -/
theorem nodup_keys_groupBy (key : α → K) (step : α → Option V → V)
    (l : List α) : ((jsGroupBy key step l).map Prod.fst).Nodup := by
  suffices h : ∀ (m : List (K × V)), (m.map Prod.fst).Nodup →
      ((l.foldl (fun m x => jsObjUpsert m (key x) (step x)) m).map Prod.fst).Nodup by
    exact h [] (by simp)
  induction l with
  | nil => intro m hm; simpa using hm
  | cons x t ih =>
    intro m hm
    exact ih _ (nodup_keys_upsert _ _ _ hm)

/-- Membership in a grouped object coincides with lookup. -/
theorem mem_groupBy_iff (key : α → K) (step : α → Option V → V)
    (l : List α) (k : K) (v : V) :
    (k, v) ∈ jsGroupBy key step l ↔ jsLookup (jsGroupBy key step l) k = some v := by
  constructor
  · intro h
    exact jsLookup_of_mem _ _ _ (nodup_keys_groupBy key step l) h
  · exact mem_of_jsLookup _ _ _

end JsGroupByLemmas

/-! ## Data model of `ai-insights-detailed/route.ts`

Rows of `study_session_analytics`, `users` and `user_module_progress` as the
route reads them.  Optional fields model `undefined` coming from the
free-form JSON columns. -/

/-- An element of a `study_session_analytics.recommendations` array. -/
structure Recommendation where
  type : String
  title : String
  description : String
  actionable_advice : Option String
  priority : Option ℤ
  confidence_score : Option ℚ
deriving DecidableEq

structure PerformanceMetrics where
  improvement_percentage : Option ℚ
  post_study_accuracy : Option ℚ
  overall_accuracy : Option ℚ
deriving DecidableEq

structure LearningPatterns where
  pattern_type : Option String
  learning_velocity : Option ℚ
deriving DecidableEq

/-- A row of `study_session_analytics`.  `analyzed_at` is an instant
(millisecond timestamp). -/
structure AnalyticsSession where
  user_id : String
  session_type : String
  analyzed_at : ℤ
  performance_metrics : Option PerformanceMetrics
  learning_patterns : Option LearningPatterns
  recommendations : Option (List Recommendation)
deriving DecidableEq

/-- A row of the `users` fetch (`id, name, email`). -/
structure StudentInfo where
  id : String
  name : String
  email : String
deriving DecidableEq

/-- `studentMap[id]` (lines 162-166): a reduce inserting each student under
its id; a later row with the same id overwrites an earlier one. -/
def studentMap (info : List StudentInfo) (uid : String) : Option StudentInfo :=
  info.foldl (fun acc st => if st.id = uid then some st else acc) Option.none

/-! ## Teaching-recommendation deduplication (lines 184-238) -/

/-- The grouping key `` `${rec.type}-${rec.title}` `` (line 191): a plain
string concatenation, not the pair `(type, title)`. -/
def recKey (r : Recommendation) : String := r.type ++ "-" ++ r.title

/-- The accumulator of `recommendationCounts[key]` before the second pass:
`affectedStudents` is the JS `Set` (insertion-ordered duplicate-free list). -/
structure RecGroup where
  type : String
  title : String
  description : String
  actionableAdvice : Option String
  priority : ℤ
  affectedStudents : List String
  frequency : ℕ
  totalConfidence : ℚ
deriving DecidableEq

/-- The fresh accumulator of lines 193-203 (note the default
`rec.priority || 1`). -/
def newGroup (r : Recommendation) : RecGroup :=
  { type := r.type, title := r.title, description := r.description,
    actionableAdvice := r.actionable_advice,
    priority := jsOrZ r.priority 1,
    affectedStudents := [], frequency := 0, totalConfidence := 0 }

/-- Lines 206-208: record one occurrence of the recommendation into its
group (default confidence `0.7`). -/
def bumpGroup (g : RecGroup) (uid : String) (r : Recommendation) : RecGroup :=
  { g with affectedStudents := setAdd g.affectedStudents uid,
           frequency := g.frequency + 1,
           totalConfidence := g.totalConfidence + jsOrQ r.confidence_score (7/10) }

/-- One upsert step of the `recommendationCounts` object for occurrence
`(uid, r)`. -/
def recStep (uid : String) (r : Recommendation) (o : Option RecGroup) : RecGroup :=
  bumpGroup (o.getD (newGroup r)) uid r

/-- The `recommendationCounts` object after the double `forEach` of
lines 188-211, as an insertion-ordered association list. -/
def recommendationCounts (data : List AnalyticsSession) : List (String × RecGroup) :=
  data.foldl
    (fun m s =>
      match s.recommendations with
      | some recs => recs.foldl (fun m r => jsObjUpsert m (recKey r) (recStep s.user_id r)) m
      | Option.none => m)
    []

/-- The flattened sequence of `(studentId, recommendation)` occurrences the
double `forEach` visits, in visit order. -/
def recOccurrences (data : List AnalyticsSession) : List (String × Recommendation) :=
  data.flatMap (fun s => (s.recommendations.getD []).map (fun r => (s.user_id, r)))

theorem recommendationCounts_eq_groupBy (data : List AnalyticsSession) :
    recommendationCounts data =
      jsGroupBy (fun p => recKey p.2) (fun p o => recStep p.1 p.2 o)
        (recOccurrences data) := by
  unfold recommendationCounts jsGroupBy recOccurrences
  suffices h : ∀ (m : List (String × RecGroup)),
      data.foldl
        (fun m s =>
          match s.recommendations with
          | some recs =>
              recs.foldl (fun m r => jsObjUpsert m (recKey r) (recStep s.user_id r)) m
          | Option.none => m) m =
      (data.flatMap (fun s => (s.recommendations.getD []).map (fun r => (s.user_id, r)))).foldl
        (fun m p => jsObjUpsert m (recKey p.2) (recStep p.1 p.2)) m by
    exact h []
  induction data with
  | nil => intro m; rfl
  | cons s t ih =>
    intro m
    rw [List.foldl_cons, List.flatMap_cons, List.foldl_append, ih]
    congr 1
    cases hr : s.recommendations with
    | none => simp
    | some recs => simp [List.foldl_map]

/-- The average confidence of line 214. -/
def avgConfidence (g : RecGroup) : ℚ :=
  if g.frequency > 0 then g.totalConfidence / g.frequency else 0

/-- An entry of the emitted `teachingRecommendations` array (lines 218-231).
The display id `rec_${n}` is presentation-only and omitted. -/
structure TeachingRec where
  type : String
  title : String
  description : String
  actionableAdvice : Option String
  priority : ℤ
  frequency : ℕ
  affectedStudentsCount : ℕ
  affectedStudents : List String
  confidence : ℤ
  impact : String
deriving DecidableEq

/-- Lines 213-231: turn a group into the emitted record.  The surfaced
names are `Array.from(set).map(name).filter(Boolean).slice(0,3)`. -/
def mkTeachingRec (info : List StudentInfo) (g : RecGroup) : TeachingRec :=
  { type := g.type, title := g.title, description := g.description,
    actionableAdvice := g.actionableAdvice, priority := g.priority,
    frequency := g.frequency,
    affectedStudentsCount := g.affectedStudents.length,
    affectedStudents :=
      (((g.affectedStudents.filterMap (fun uid => (studentMap info uid).map (·.name))).filter
        (fun n => n ≠ ""))).take 3,
    confidence := jsRound (avgConfidence g * 100),
    impact := if g.affectedStudents.length ≥ 3 then "high"
              else if g.affectedStudents.length = 2 then "medium" else "low" }

/-- The sort comparator of lines 235-238 as a `≤`-style relation:
ascending `priority`, ties broken by descending `frequency`. -/
def recLe (a b : TeachingRec) : Bool :=
  a.priority < b.priority || (a.priority == b.priority && b.frequency ≤ a.frequency)

/-- The sorted (pre-truncation) `teachingRecommendations` array. -/
def teachingRecommendations (data : List AnalyticsSession)
    (info : List StudentInfo) : List TeachingRec :=
  ((recommendationCounts data).map (fun p => mkTeachingRec info p.2)).mergeSort recLe

/-- The emitted `teachingRecommendations.slice(0, 10)` (line 505). -/
def teachingRecommendationsTop (data : List AnalyticsSession)
    (info : List StudentInfo) : List TeachingRec :=
  (teachingRecommendations data info).take 10

/-! ## Student interventions (lines 240-317) -/

/-- `rec.priority <= 2` (line 259): `undefined <= 2` is false in JS, so an
absent priority is not counted. -/
def isHighPriority (r : Recommendation) : Bool :=
  match r.priority with
  | some p => p ≤ 2
  | Option.none => false

/-- `rec.priority === 1` (line 260). -/
def isCritical (r : Recommendation) : Bool :=
  match r.priority with
  | some p => p = 1
  | Option.none => false

/-- The per-student accumulator `studentAnalytics[userId]` (lines 245-252).
`improvementTrend` is recomputed in the output pass and is kept as the
separate function `improvementTrend` below. -/
structure StudentAgg where
  sessions : List AnalyticsSession
  totalRecommendations : ℕ
  highPriorityIssues : ℕ
  criticalIssues : ℕ
deriving DecidableEq

/-- Lines 254-262: add one analytics row to a student's accumulator. -/
def bumpStudent (a : StudentAgg) (s : AnalyticsSession) : StudentAgg :=
  let a' := { a with sessions := a.sessions ++ [s] }
  match s.recommendations with
  | some recs =>
      { a' with
        totalRecommendations := a'.totalRecommendations + recs.length,
        highPriorityIssues := a'.highPriorityIssues + recs.countP isHighPriority,
        criticalIssues := a'.criticalIssues + recs.countP isCritical }
  | Option.none => a'

def studentStep (s : AnalyticsSession) (o : Option StudentAgg) : StudentAgg :=
  bumpStudent (o.getD ⟨[], 0, 0, 0⟩) s

/-- The `studentAnalytics` object of lines 242-263, keyed by `user_id` in
insertion order. -/
def studentAnalytics (data : List AnalyticsSession) : List (String × StudentAgg) :=
  jsGroupBy (fun s => s.user_id) studentStep data

/-- `s.performance_metrics?.improvement_percentage || 0` (line 271). -/
def perfValue (s : AnalyticsSession) : ℚ :=
  jsOrQ (s.performance_metrics.bind (fun m => m.improvement_percentage)) 0

/-- Lines 270-276: difference between the last and first non-zero
improvement percentages, `0` with fewer than two samples. -/
def improvementTrend (sessions : List AnalyticsSession) : ℚ :=
  let performances := (sessions.map perfValue).filter (fun p => p ≠ 0)
  if performances.length ≥ 2 then performances.getLastD 0 - performances.headD 0
  else 0

inductive ILevel where
  | none
  | medium
  | high
  | urgent
deriving DecidableEq

/-- The first-match classification of lines 279-291. -/
def interventionLevel (a : StudentAgg) : ILevel :=
  if a.criticalIssues > 0 then ILevel.urgent
  else if a.highPriorityIssues ≥ 3 then ILevel.high
  else if improvementTrend a.sessions < -20 then ILevel.medium
  else ILevel.none

/-- The `interventionReason` strings accumulated alongside the level. -/
def interventionReasons (a : StudentAgg) : List String :=
  if a.criticalIssues > 0 then
    [toString a.criticalIssues ++ " critical issues identified"]
  else if a.highPriorityIssues ≥ 3 then
    [toString a.highPriorityIssues ++ " high priority issues"]
  else if improvementTrend a.sessions < -20 then
    ["declining performance trend"]
  else []

/-- `levelPriority` (line 316).  The sort only ever sees the three emitted
levels; `ILevel.none` is given the out-of-band value `3`. -/
def levelPriority : ILevel → ℤ
  | ILevel.urgent => 0
  | ILevel.high => 1
  | ILevel.medium => 2
  | ILevel.none => 3

structure Intervention where
  studentId : String
  studentName : String
  studentEmail : String
  interventionLevel : ILevel
  reasons : List String
  recommendedActions : List (Option String)
  lastAnalyzed : ℤ
  sessionsAnalyzed : ℕ
  improvementTrend : ℤ
deriving DecidableEq

/-- The sort of line 296: descending `analyzed_at`. -/
def sessionsByAnalyzedDesc (l : List AnalyticsSession) : List AnalyticsSession :=
  l.mergeSort (fun a b => b.analyzed_at ≤ a.analyzed_at)

/-- Placeholder for `[0]` on an empty array; every emitted intervention has
at least one session, so it is never the value actually read. -/
def dummySession : AnalyticsSession :=
  ⟨"", "", 0, Option.none, Option.none, Option.none⟩

/-- The record pushed at lines 298-311. -/
def mkIntervention (uid : String) (st : StudentInfo) (a : StudentAgg) : Intervention :=
  let latest := (sessionsByAnalyzedDesc a.sessions).headD dummySession
  { studentId := uid, studentName := st.name, studentEmail := st.email,
    interventionLevel := interventionLevel a,
    reasons := interventionReasons a,
    recommendedActions :=
      (((latest.recommendations.getD []).filter isHighPriority).take 3).map
        (fun r => r.actionable_advice),
    lastAnalyzed := latest.analyzed_at,
    sessionsAnalyzed := a.sessions.length,
    improvementTrend := jsRound (improvementTrend a.sessions) }

/-- Lines 265-317: one entry per analytics-student that is present in the
fetched `users` info (`if (!student) return`) and has level ≠ `none`,
sorted by `levelPriority`. -/
def studentInterventions (data : List AnalyticsSession)
    (info : List StudentInfo) : List Intervention :=
  ((studentAnalytics data).filterMap (fun p =>
      match studentMap info p.1 with
      | Option.none => Option.none
      | some st =>
          if interventionLevel p.2 ≠ ILevel.none then
            some (mkIntervention p.1 st p.2)
          else Option.none)).mergeSort
    (fun a b => levelPriority a.interventionLevel ≤ levelPriority b.interventionLevel)

/-- The emitted `studentInterventions.slice(0, 15)` (line 506). -/
def studentInterventionsTop (data : List AnalyticsSession)
    (info : List StudentInfo) : List Intervention :=
  (studentInterventions data info).take 15

/-! ## Module performance alerts (lines 360-435) -/

/-- A row of the `user_module_progress` fetch of this route; `best_score`
models `parseFloat(mp.best_score || '0')`'s input (`none` = null column). -/
structure ModuleProgressRow where
  user_id : String
  module_id : String
  best_score : Option ℚ
  status : String
  needs_remedial : Bool
  moduleTitle : String
deriving DecidableEq

/-- The per-module accumulator of lines 367-374. -/
structure ModulePerf where
  title : String
  scores : List ℚ
  needsRemedial : ℕ
  failing : ℕ
  totalStudents : ℕ
deriving DecidableEq

/-- Lines 377-387: fold one progress row into its module's accumulator.
Note the documented double count: a score in `[60,70)` and an explicit
`needs_remedial` flag both bump `needsRemedial`. -/
def bumpModule (m : ModulePerf) (row : ModuleProgressRow) : ModulePerf :=
  let m := { m with totalStudents := m.totalStudents + 1 }
  let score := row.best_score.getD 0
  let m :=
    if score > 0 then
      { m with scores := m.scores ++ [score],
               failing := if score < 60 then m.failing + 1 else m.failing,
               needsRemedial :=
                 if score < 60 then m.needsRemedial
                 else if score < 70 then m.needsRemedial + 1
                 else m.needsRemedial }
    else m
  if row.needs_remedial then { m with needsRemedial := m.needsRemedial + 1 } else m

def moduleStep (row : ModuleProgressRow) (o : Option ModulePerf) : ModulePerf :=
  bumpModule (o.getD ⟨row.moduleTitle, [], 0, 0, 0⟩) row

/-- The `modulePerformanceMap` object of lines 364-388. -/
def modulePerformanceMap (rows : List ModuleProgressRow) : List (String × ModulePerf) :=
  jsGroupBy (fun row => row.module_id) moduleStep rows

/-- Line 391: average of the positive scores, `0` when there are none. -/
def avgScore (d : ModulePerf) : ℚ :=
  if d.scores.length > 0 then d.scores.sum / d.scores.length else 0

/-- Line 392 (unrounded). -/
def failureRate (d : ModulePerf) : ℚ := d.failing / d.totalStudents * 100

/-- Line 393 (unrounded). -/
def remedialRate (d : ModulePerf) : ℚ := d.needsRemedial / d.totalStudents * 100

structure Alert where
  type : String
  title : String
  description : String
  moduleId : String
  moduleTitle : String
  metric : String
  value : ℤ
  affectedStudents : ℕ
  totalStudents : ℕ
  severity : String
deriving DecidableEq

/-- The first-match alert classification of lines 395-434; `none` when no
branch fires (no alert emitted for the module). -/
def moduleAlert (mid : String) (d : ModulePerf) : Option Alert :=
  if failureRate d ≥ 30 then
    some { type := "critical",
           title := "High Failure Rate in " ++ d.title,
           description := toString (jsRound (failureRate d)) ++
             "% of students are failing this module",
           moduleId := mid, moduleTitle := d.title, metric := "failure_rate",
           value := jsRound (failureRate d), affectedStudents := d.failing,
           totalStudents := d.totalStudents, severity := "high" }
  else if remedialRate d ≥ 40 then
    some { type := "warning",
           title := "Many Students Need Remedial Help in " ++ d.title,
           description := toString (jsRound (remedialRate d)) ++
             "% of students need additional support",
           moduleId := mid, moduleTitle := d.title, metric := "remedial_rate",
           value := jsRound (remedialRate d), affectedStudents := d.needsRemedial,
           totalStudents := d.totalStudents, severity := "medium" }
  else if avgScore d < 70 then
    some { type := "info",
           title := "Below Average Performance in " ++ d.title,
           description := "Average score of " ++ toString (jsRound (avgScore d)) ++
             "% indicates room for improvement",
           moduleId := mid, moduleTitle := d.title, metric := "average_score",
           value := jsRound (avgScore d), affectedStudents := d.totalStudents,
           totalStudents := d.totalStudents, severity := "low" }
  else Option.none

/-- The `performanceAlerts` array (lines 390-435), one optional alert per
module in map order. -/
def performanceAlerts (rows : List ModuleProgressRow) : List Alert :=
  (modulePerformanceMap rows).filterMap (fun p => moduleAlert p.1 p.2)

/-! ## Data model of `study-techniques-detailed/route.ts`

A technique session row carries its student, lifecycle status and creation
date.  `createdDay` is the calendar day of `created_at`: the code only ever
compares `created_at` through its `YYYY-MM-DD` prefix. -/

structure TSession where
  user_id : String
  status : String
  createdDay : ℤ
deriving DecidableEq

structure ARAttempt where
  is_correct : Bool
  response_time_seconds : Option ℚ
deriving DecidableEq

structure PomCycle where
  type : String
  completed : Bool
  focus_score : Option ℚ
  duration_minutes : Option ℚ
deriving DecidableEq

structure FExplanation where
  overall_score : Option ℚ
  word_count : Option ℤ
deriving DecidableEq

structure RPAttempt where
  is_correct : Bool
  confidence_level : Option ℚ
  response_time_seconds : Option ℚ
deriving DecidableEq

/-- `new Set(sessions.map(s => s.user_id)).size`. -/
def userEngagement (l : List TSession) : ℕ :=
  ((l.map (fun s => s.user_id)).foldl setAdd []).length

def countStatus (l : List TSession) (st : String) : ℕ :=
  l.countP (fun s => s.status == st)

/-- `activeRecallAnalytics` (lines 172-198). -/
structure ARStats where
  totalSessions : ℕ
  completedSessions : ℕ
  averageSessionDuration : ℤ
  totalAttempts : ℕ
  averageAccuracy : ℤ
  flashcardsGenerated : ℕ
  improvementRate : ℤ
  userEngagement : ℕ
  statusCompleted : ℕ
  statusPreparing : ℕ
  statusStudying : ℕ
  statusPaused : ℕ
deriving DecidableEq

def buildARStats (sessions : List TSession) (attempts : List ARAttempt) : ARStats :=
  { totalSessions := sessions.length,
    completedSessions := countStatus sessions "completed",
    averageSessionDuration :=
      if attempts.length > 0 then
        jsRound ((attempts.map (fun a => jsOrQ a.response_time_seconds 0)).sum /
          attempts.length)
      else 0,
    totalAttempts := attempts.length,
    averageAccuracy :=
      if attempts.length > 0 then
        jsRound (((attempts.countP (fun a => a.is_correct) : ℚ) / attempts.length) * 100)
      else 0,
    flashcardsGenerated := 0,
    improvementRate := 0,
    userEngagement := userEngagement sessions,
    statusCompleted := countStatus sessions "completed",
    statusPreparing := countStatus sessions "preparing",
    statusStudying := countStatus sessions "studying",
    statusPaused := countStatus sessions "paused" }

/-- `pomodoroAnalytics` (lines 200-239). -/
structure PomStats where
  totalSessions : ℕ
  completedSessions : ℕ
  totalCycles : ℕ
  completedCycles : ℕ
  averageFocusScore : ℤ
  averageCyclesPerSession : ℤ
  totalStudyTime : ℚ
  breakAdherence : ℤ
  userEngagement : ℕ
  cyclesWork : ℕ
  cyclesShortBreak : ℕ
  cyclesLongBreak : ℕ
deriving DecidableEq

def buildPomStats (sessions : List TSession) (cycles : List PomCycle) : PomStats :=
  let focusScores := (cycles.filterMap (fun c => c.focus_score)).filter (fun q => q ≠ 0)
  { totalSessions := sessions.length,
    completedSessions := countStatus sessions "completed",
    totalCycles := cycles.length,
    completedCycles := cycles.countP (fun c => c.completed),
    averageFocusScore :=
      if cycles.length > 0 ∧ focusScores.length > 0 then
        jsRound (focusScores.sum / focusScores.length)
      else 0,
    averageCyclesPerSession :=
      if cycles.length > 0 ∧ sessions.length > 0 then
        jsRound ((cycles.length : ℚ) / sessions.length)
      else 0,
    totalStudyTime :=
      if cycles.length > 0 then
        ((cycles.filter (fun c => c.type == "work")).map
          (fun c => jsOrQ c.duration_minutes 25)).sum
      else 0,
    breakAdherence :=
      if cycles.length > 0 ∧ cycles.countP (fun c => c.type != "work") > 0 then
        jsRound (((cycles.countP (fun c => c.type != "work" && c.completed) : ℚ) /
          cycles.countP (fun c => c.type != "work")) * 100)
      else 0,
    userEngagement := userEngagement sessions,
    cyclesWork := cycles.countP (fun c => c.type == "work"),
    cyclesShortBreak := cycles.countP (fun c => c.type == "short_break"),
    cyclesLongBreak := cycles.countP (fun c => c.type == "long_break") }

/-- `feynmanAnalytics` (lines 241-272). -/
structure FeyStats where
  totalSessions : ℕ
  completedSessions : ℕ
  totalExplanations : ℕ
  averageExplanationScore : ℤ
  averageWordCount : ℤ
  improvementTrend : ℤ
  conceptMastery : ℤ
  userEngagement : ℕ
  statusCompleted : ℕ
  statusExplaining : ℕ
  statusReviewing : ℕ
  statusPreparing : ℕ
deriving DecidableEq

def buildFeyStats (sessions : List TSession) (explanations : List FExplanation) : FeyStats :=
  -- `overall_score` is a decimal column read as a string (`parseFloat`), so
  -- only a missing value is falsy; `word_count` is numeric, so `0` is falsy.
  let scores := explanations.filterMap (fun e => e.overall_score)
  let wordCounts := (explanations.filterMap (fun e => e.word_count)).filter (fun w => w ≠ 0)
  { totalSessions := sessions.length,
    completedSessions := countStatus sessions "completed",
    totalExplanations := explanations.length,
    averageExplanationScore :=
      if explanations.length > 0 ∧ scores.length > 0 then
        jsRound (scores.sum / scores.length)
      else 0,
    averageWordCount :=
      if explanations.length > 0 ∧ wordCounts.length > 0 then
        jsRound (((wordCounts.map (fun w => (w : ℚ))).sum) / wordCounts.length)
      else 0,
    improvementTrend := 0,
    conceptMastery := 0,
    userEngagement := userEngagement sessions,
    statusCompleted := countStatus sessions "completed",
    statusExplaining := countStatus sessions "explaining",
    statusReviewing := countStatus sessions "reviewing",
    statusPreparing := countStatus sessions "preparing" }

/-- `retrievalPracticeAnalytics` (lines 274-311). -/
structure RPStats where
  totalSessions : ℕ
  completedSessions : ℕ
  totalQuestions : ℕ
  averageAccuracy : ℤ
  averageConfidence : ℤ
  averageResponseTime : ℤ
  questionsPerSession : ℤ
  userEngagement : ℕ
deriving DecidableEq

def buildRPStats (sessions : List TSession) (attempts : List RPAttempt) : RPStats :=
  let confidenceScores := (attempts.filterMap (fun a => a.confidence_level)).filter
    (fun q => q ≠ 0)
  let responseTimes := (attempts.filterMap (fun a => a.response_time_seconds)).filter
    (fun q => q ≠ 0)
  { totalSessions := sessions.length,
    completedSessions := countStatus sessions "completed",
    totalQuestions := attempts.length,
    averageAccuracy :=
      if attempts.length > 0 then
        jsRound (((attempts.countP (fun a => a.is_correct) : ℚ) / attempts.length) * 100)
      else 0,
    averageConfidence :=
      if attempts.length > 0 ∧ confidenceScores.length > 0 then
        jsRound (confidenceScores.sum / confidenceScores.length)
      else 0,
    averageResponseTime :=
      if attempts.length > 0 ∧ responseTimes.length > 0 then
        jsRound (responseTimes.sum / responseTimes.length)
      else 0,
    questionsPerSession :=
      if attempts.length > 0 ∧ sessions.length > 0 then
        jsRound ((attempts.length : ℚ) / sessions.length)
      else 0,
    userEngagement := userEngagement sessions }

/-! ## Technique comparison (lines 313-330) -/

structure TechniqueEntry where
  technique : String
  sessions : ℕ
  users : ℕ
  adoptionRate : ℤ
  sessionsPerUser : ℤ
  color : String
deriving DecidableEq

/-- One entry of lines 321-329. -/
def mkTechniqueEntry (studentCount : ℕ) (name : String) (l : List TSession) :
    TechniqueEntry :=
  let users := userEngagement l
  { technique := name,
    sessions := l.length,
    users := users,
    adoptionRate := jsRound (((users : ℚ) / (max studentCount 1)) * 100),
    sessionsPerUser := if users > 0 then jsRound ((l.length : ℚ) / users) else 0,
    color :=
      if name = "Active Recall" then "#10B981"
      else if name = "Pomodoro" then "#3B82F6"
      else if name = "Feynman" then "#EF4444" else "#8B5CF6" }

/-- `techniqueComparison` (lines 313-330): the four fixed techniques,
sorted descending by session count (stable). -/
def techniqueComparison (studentIds : List String)
    (ar pom fey ret : List TSession) : List TechniqueEntry :=
  ([mkTechniqueEntry studentIds.length "Active Recall" ar,
    mkTechniqueEntry studentIds.length "Pomodoro" pom,
    mkTechniqueEntry studentIds.length "Feynman" fey,
    mkTechniqueEntry studentIds.length "Retrieval Practice" ret]).mergeSort
    (fun a b => b.sessions ≤ a.sessions)

/-! ## Time-based analysis (lines 332-354) -/

structure DayBucket where
  date : ℤ
  activeRecall : ℕ
  pomodoro : ℕ
  feynman : ℕ
  retrievalPractice : ℕ
  total : ℕ
deriving DecidableEq

/-- `days` (line 334): note the final `: 90` branch catches every token
other than `week`/`month`, not just `quarter`. -/
def daysFor (timeRange : String) : ℕ :=
  if timeRange = "week" then 7 else if timeRange = "month" then 30 else 90

/-- The bucket pushed for one day (lines 341-353). -/
def mkDayBucket (d : ℤ) (ar pom fey ret : List TSession) : DayBucket :=
  let a := ar.countP (fun s => s.createdDay == d)
  let p := pom.countP (fun s => s.createdDay == d)
  let f := fey.countP (fun s => s.createdDay == d)
  let r := ret.countP (fun s => s.createdDay == d)
  { date := d, activeRecall := a, pomodoro := p, feynman := f,
    retrievalPractice := r, total := a + p + f + r }

/-- The loop of lines 336-354: `i` runs from `days-1` down to `0`, pushing
the bucket for day `today - i`. -/
def timeBasedAnalysis (timeRange : String) (today : ℤ)
    (ar pom fey ret : List TSession) : List DayBucket :=
  ((List.range (daysFor timeRange)).reverse).map
    (fun i : ℕ => mkDayBucket (today - (i : ℤ)) ar pom fey ret)

/-! ## Effectiveness metrics (study-techniques lines 356-385) -/

/-- The `||` chain of lines 370-372: first truthy of the three metrics,
else `0`. -/
def effPerfValue (s : AnalyticsSession) : ℚ :=
  match s.performance_metrics with
  | Option.none => 0
  | some m =>
      jsOrQ m.improvement_percentage
        (jsOrQ m.post_study_accuracy (jsOrQ m.overall_accuracy 0))

structure EffMetric where
  averageImprovement : ℤ
  sessionCount : ℕ
  effectivenessRating : String
deriving DecidableEq

def buildEffMetric (sessions : List AnalyticsSession) : EffMetric :=
  let performances := (sessions.map effPerfValue).filter (fun p => p > 0)
  { averageImprovement :=
      if performances.length > 0 then jsRound (performances.sum / performances.length)
      else 0,
    sessionCount := sessions.length,
    effectivenessRating :=
      if performances.length > 0 ∧ performances.sum / performances.length ≥ 70 then "High"
      else if performances.length > 0 ∧ performances.sum / performances.length ≥ 50 then
        "Medium"
      else "Low" }

/-- The reduce of lines 359-365, grouping rows by `session_type`. -/
def analyticsByTechnique (data : List AnalyticsSession) :
    List (String × List AnalyticsSession) :=
  jsGroupBy (fun s => s.session_type) (fun s o => o.getD [] ++ [s]) data

def effectivenessMetrics (data : List AnalyticsSession) : List (String × EffMetric) :=
  (analyticsByTechnique data).map (fun p => (p.1, buildEffMetric p.2))

/-! ## Learning-pattern insights (ai-insights lines 319-358) -/

/-- `session.learning_patterns?.pattern_type` when truthy (line 324). -/
def sessionPattern (s : AnalyticsSession) : Option String :=
  match s.learning_patterns with
  | some lp =>
      match lp.pattern_type with
      | some pt => if pt = "" then Option.none else some pt
      | Option.none => Option.none
  | Option.none => Option.none

structure PatternGroup where
  count : ℕ
  students : List String
  totalVelocity : ℚ
  sessions : List AnalyticsSession
deriving DecidableEq

/-- Lines 326-343: one upsert into `patternCounts`. -/
def patternStep (s : AnalyticsSession) (o : Option PatternGroup) : PatternGroup :=
  let g := o.getD ⟨0, [], 0, []⟩
  let g := { g with count := g.count + 1,
                    students := setAdd g.students s.user_id,
                    sessions := g.sessions ++ [s] }
  match s.learning_patterns with
  | some lp =>
      match lp.learning_velocity with
      | some v => if v = 0 then g else { g with totalVelocity := g.totalVelocity + v }
      | Option.none => g
  | Option.none => g

def patternCounts (data : List AnalyticsSession) : List (String × PatternGroup) :=
  jsGroupBy (fun p => p.1) (fun p o => patternStep p.2 o)
    (data.filterMap (fun s => (sessionPattern s).map (fun pt => (pt, s))))

def getPatternDescription (pattern : String) : String :=
  if pattern = "strugglingConcepts" then
    "Students are having difficulty with specific concepts and may need additional support"
  else if pattern = "steadyProgression" then
    "Students are making consistent progress through the material"
  else if pattern = "rapidLearning" then
    "Students are learning quickly and may benefit from advanced content"
  else if pattern = "inconsistentPerformance" then
    "Student performance varies significantly between sessions"
  else "Specific learning pattern identified requiring attention"

def getTeachingSuggestionForPattern (pattern : String) (_velocity : ℚ) : String :=
  if pattern = "strugglingConcepts" then
    "Consider providing additional scaffolding, breaking down complex concepts, or implementing peer tutoring"
  else if pattern = "steadyProgression" then
    "Continue current teaching methods while monitoring for any changes in pace"
  else if pattern = "rapidLearning" then
    "Provide enrichment activities or accelerated content to maintain engagement"
  else if pattern = "inconsistentPerformance" then
    "Investigate external factors and consider more frequent check-ins with affected students"
  else "Monitor closely and adjust teaching strategies as needed"

structure PatternInsight where
  pattern : String
  frequency : ℕ
  studentsAffected : ℕ
  averageVelocity : ℚ
  description : String
  teachingSuggestion : String
  impact : String
deriving DecidableEq

/-- Lines 346-358. -/
def mkPatternInsight (pattern : String) (g : PatternGroup) : PatternInsight :=
  let avgVelocity := if g.count > 0 then g.totalVelocity / g.count else 0
  { pattern := pattern, frequency := g.count, studentsAffected := g.students.length,
    averageVelocity := (jsRound (avgVelocity * 100) : ℚ) / 100,
    description := getPatternDescription pattern,
    teachingSuggestion := getTeachingSuggestionForPattern pattern avgVelocity,
    impact := if g.students.length ≥ 3 then "high"
              else if g.students.length = 2 then "medium" else "low" }

def learningPatternInsights (data : List AnalyticsSession) : List PatternInsight :=
  (patternCounts data).map (fun p => mkPatternInsight p.1 p.2)

/-! ## Content-optimization suggestions (ai-insights lines 437-472) -/

structure FeynmanFeedback where
  feedback_type : String
  suggested_improvement : Option String
  severity : Option String
  priority : Option ℤ
deriving DecidableEq

/-- `feedback.severity || 'medium'` (line 457). -/
def sevKey (o : Option String) : String :=
  match o with
  | some s => if s = "" then "medium" else s
  | Option.none => "medium"

structure FeedbackAgg where
  count : ℕ
  highPriority : ℕ
  suggestions : List String
  sevLow : ℕ
  sevMedium : ℕ
  sevHigh : ℕ
  sevCritical : ℕ
deriving DecidableEq

/-- Lines 441-458; the severity column is constrained to
`low/medium/high/critical` by the schema. -/
def feedbackStep (f : FeynmanFeedback) (o : Option FeedbackAgg) : FeedbackAgg :=
  let g := o.getD ⟨0, 0, [], 0, 0, 0, 0⟩
  let g := { g with count := g.count + 1 }
  let g :=
    if (match f.priority with | some p => decide (p ≤ 2) | Option.none => false) then
      { g with highPriority := g.highPriority + 1 }
    else g
  let g :=
    match f.suggested_improvement with
    | some si => if si = "" then g else { g with suggestions := setAdd g.suggestions si }
    | Option.none => g
  let k := sevKey f.severity
  if k = "low" then { g with sevLow := g.sevLow + 1 }
  else if k = "medium" then { g with sevMedium := g.sevMedium + 1 }
  else if k = "high" then { g with sevHigh := g.sevHigh + 1 }
  else if k = "critical" then { g with sevCritical := g.sevCritical + 1 }
  else g

def feedbackAnalysis (ff : List FeynmanFeedback) : List (String × FeedbackAgg) :=
  jsGroupBy (fun f => f.feedback_type) feedbackStep ff

def getFeedbackDescription (type : String) : String :=
  if type = "clarity" then
    "Students need clearer explanations and simpler language in their learning materials"
  else if type = "completeness" then
    "Learning materials may need more comprehensive coverage of topics"
  else if type = "accuracy" then
    "Focus on fact-checking and ensuring accurate information in explanations"
  else if type = "simplification" then
    "Content should be presented in more digestible, simplified formats"
  else if type = "examples" then
    "More practical examples and real-world applications needed"
  else "Improvement needed in this area of content delivery"

structure ContentSuggestion where
  area : String
  frequency : ℕ
  priority : String
  suggestions : List String
  description : String
  impact : String
  sevLow : ℕ
  sevMedium : ℕ
  sevHigh : ℕ
  sevCritical : ℕ
deriving DecidableEq

/-- Lines 462-470. -/
def mkContentSuggestion (type : String) (g : FeedbackAgg) : ContentSuggestion :=
  { area := type, frequency := g.count,
    priority := if (g.highPriority : ℚ) ≥ (g.count : ℚ) * (1/2) then "high" else "medium",
    suggestions := g.suggestions.take 3,
    description := getFeedbackDescription type,
    impact := if g.count ≥ 5 then "high" else if g.count ≥ 3 then "medium" else "low",
    sevLow := g.sevLow, sevMedium := g.sevMedium, sevHigh := g.sevHigh,
    sevCritical := g.sevCritical }

/-- Lines 460-472: only feedback types seen at least twice are emitted. -/
def contentOptimizationSuggestions (ff : List FeynmanFeedback) : List ContentSuggestion :=
  (feedbackAnalysis ff).filterMap
    (fun p => if p.2.count ≥ 2 then some (mkContentSuggestion p.1 p.2) else Option.none)

/-! ## Class performance insights (ai-insights lines 474-498) -/

structure ClassInsight where
  type : String
  title : String
  insight : String
  averageImprovement : ℤ
  improvementRate : ℤ
  studentsAnalyzed : ℕ
  trend : String
deriving DecidableEq

def classPerformanceInsights (data : List AnalyticsSession) : List ClassInsight :=
  let overallPerformances := (data.map perfValue).filter (fun p => p ≠ 0)
  if overallPerformances.length > 0 then
    let avgImprovement := overallPerformances.sum / overallPerformances.length
    let positiveImprovements := overallPerformances.countP (fun p => p > 0)
    let improvementRate := ((positiveImprovements : ℚ) / overallPerformances.length) * 100
    [{ type := "overall_performance", title := "Class Learning Progress",
       insight := toString (jsRound improvementRate) ++
         "% of students show positive learning improvements with an average improvement of "
         ++ toString (jsRound avgImprovement) ++ "%",
       averageImprovement := jsRound avgImprovement,
       improvementRate := jsRound improvementRate,
       studentsAnalyzed := ((data.map (fun s => s.user_id)).foldl setAdd []).length,
       trend := if avgImprovement > 10 then "positive"
                else if avgImprovement < -10 then "concerning" else "stable" }]
  else []

/-! ## The two GET pipelines (claims about control flow and the all-empty
result) -/

structure Course where
  id : String
  title : String
deriving DecidableEq

inductive ApiResult (α : Type) where
  | error (status : ℕ)
  | success (d : α)
deriving DecidableEq

/-- The `data` object of the ai-insights response.
`studyPlanRecommendations` is the literal `[]` at line 510. -/
structure AIData where
  teachingRecommendations : List TeachingRec
  studentInterventions : List Intervention
  learningPatternInsights : List PatternInsight
  performanceAlerts : List Alert
  contentOptimizationSuggestions : List ContentSuggestion
  studyPlanRecommendations : List String
  classPerformanceInsights : List ClassInsight
deriving DecidableEq

def emptyAIData : AIData := ⟨[], [], [], [], [], [], []⟩

/-- The `GET` pipeline of `ai-insights-detailed/route.ts`.  Inputs are the
authentication outcome and the fetched collections (`Option.none` = a fetch
whose `data` was null, `Except.error` = the enrolled-students RPC failed). -/
def aiInsightsGET (userIdPresent instructorOk : Bool)
    (courses : Option (List Course)) (enrollment : Except Unit (List String))
    (analyticsData : Option (List AnalyticsSession))
    (studentsInfo : Option (List StudentInfo))
    (moduleProgress : Option (List ModuleProgressRow))
    (feynmanFeedback : Option (List FeynmanFeedback)) : ApiResult AIData :=
  if ¬ userIdPresent then ApiResult.error 401
  else if ¬ instructorOk then ApiResult.error 403
  else
    match courses with
    | Option.none => ApiResult.success emptyAIData
    | some cs =>
      if cs.length = 0 then ApiResult.success emptyAIData
      else
        match enrollment with
        | Except.error _ => ApiResult.error 500
        | Except.ok studentIds =>
          if studentIds.length = 0 then ApiResult.success emptyAIData
          else
            match analyticsData with
            | Option.none => ApiResult.success emptyAIData
            | some ad =>
              if ad.length = 0 then ApiResult.success emptyAIData
              else
                let info := studentsInfo.getD []
                ApiResult.success
                  { teachingRecommendations := teachingRecommendationsTop ad info,
                    studentInterventions := studentInterventionsTop ad info,
                    learningPatternInsights := (learningPatternInsights ad).take 8,
                    performanceAlerts := (performanceAlerts (moduleProgress.getD [])).take 10,
                    contentOptimizationSuggestions :=
                      (contentOptimizationSuggestions (feynmanFeedback.getD [])).take 8,
                    studyPlanRecommendations := [],
                    classPerformanceInsights := classPerformanceInsights ad }

/-- The `data` object of the study-techniques response; the four analytics
objects are `{}` (`Option.none`) in the short-circuit payloads and populated
records on the full path. -/
structure TechData where
  activeRecallAnalytics : Option ARStats
  pomodoroAnalytics : Option PomStats
  feynmanAnalytics : Option FeyStats
  retrievalPracticeAnalytics : Option RPStats
  techniqueComparison : List TechniqueEntry
  timeBasedAnalysis : List DayBucket
  effectivenessMetrics : List (String × EffMetric)
deriving DecidableEq

def emptyTechData : TechData :=
  ⟨Option.none, Option.none, Option.none, Option.none, [], [], []⟩

/-- The `GET` pipeline of `study-techniques-detailed/route.ts`. -/
def studyTechniquesGET (userIdPresent instructorOk : Bool)
    (timeRange : String) (today : ℤ)
    (courses : Option (List Course)) (enrollment : Except Unit (List String))
    (ar : List TSession) (arAttempts : List ARAttempt)
    (pom : List TSession) (pomCycles : List PomCycle)
    (fey : List TSession) (feyExplanations : List FExplanation)
    (ret : List TSession) (retAttempts : List RPAttempt)
    (analytics : Option (List AnalyticsSession)) : ApiResult TechData :=
  if ¬ userIdPresent then ApiResult.error 401
  else if ¬ instructorOk then ApiResult.error 403
  else
    match courses with
    | Option.none => ApiResult.success emptyTechData
    | some cs =>
      if cs.length = 0 then ApiResult.success emptyTechData
      else
        match enrollment with
        | Except.error _ => ApiResult.error 500
        | Except.ok studentIds =>
          if studentIds.length = 0 then ApiResult.success emptyTechData
          else
            ApiResult.success
              { activeRecallAnalytics := some (buildARStats ar arAttempts),
                pomodoroAnalytics := some (buildPomStats pom pomCycles),
                feynmanAnalytics := some (buildFeyStats fey feyExplanations),
                retrievalPracticeAnalytics := some (buildRPStats ret retAttempts),
                techniqueComparison := techniqueComparison studentIds ar pom fey ret,
                timeBasedAnalysis := timeBasedAnalysis timeRange today ar pom fey ret,
                effectivenessMetrics :=
                  match analytics with
                  | some l => effectivenessMetrics l
                  | Option.none => [] }

/-! ## Data model of `export-report/route.ts` (comprehensive/overview
course analysis, lines 82-274) -/

structure ECourse where
  id : String
  title : String
  description : String
  status : String
deriving DecidableEq

structure EModule where
  id : String
  title : String
  description : String
  course_id : String
  order_index : ℤ
  passing_threshold : ℚ
deriving DecidableEq

structure EMaterial where
  id : String
  title : String
  file_type : String
  file_size : ℤ
  module_id : String
deriving DecidableEq

structure EProgress where
  user_id : String
  module_id : String
  best_score : Option ℚ
  latest_score : Option ℚ
  status : String
  passed : Bool
  attempt_count : Option ℤ
  needs_remedial : Bool
deriving DecidableEq

structure ESession where
  id : String
  user_id : String
  module_id : String
  createdDay : ℤ
  status : String
  session_type : String
deriving DecidableEq

/-- An entry of `moduleAnalysis` (lines 185-218).  The nested materials
array is kept as the list of material ids. -/
structure ModuleReport where
  id : String
  title : String
  description : String
  orderIndex : ℤ
  passingThreshold : ℚ
  totalStudents : ℕ
  completedStudents : ℕ
  averageScore : ℤ
  totalSessions : ℕ
  totalMaterials : ℕ
  needRemedial : ℕ
  sessionsActiveRecall : ℕ
  sessionsPomodoro : ℕ
  sessionsFeynman : ℕ
  sessionsRetrievalPractice : ℕ
  materialIds : List String
deriving DecidableEq

/-- The shape-changing `modules` field (line 234): a bare count without
`includeDetails`, the detail array with it. -/
inductive ModulesField where
  | count (n : ℕ)
  | details (l : List ModuleReport)
deriving DecidableEq

structure CourseReport where
  id : String
  title : String
  description : String
  status : String
  totalModules : ℕ
  totalMaterials : ℕ
  totalStudents : ℕ
  totalSessions : ℕ
  averageScore : ℤ
  completionRate : ℤ
  modules : ModulesField
deriving DecidableEq

def moduleReport (courseProgress : List EProgress) (courseSessions : List ESession)
    (courseMats : List EMaterial) (m : EModule) : ModuleReport :=
  let moduleProgress := courseProgress.filter (fun p => p.module_id == m.id)
  let moduleSessions := courseSessions.filter (fun s => s.module_id == m.id)
  let moduleMaterials := courseMats.filter (fun mat => mat.module_id == m.id)
  { id := m.id, title := m.title, description := m.description,
    orderIndex := m.order_index, passingThreshold := m.passing_threshold,
    totalStudents := moduleProgress.length,
    completedStudents := moduleProgress.countP
      (fun p => p.status == "completed" || p.passed),
    averageScore :=
      if moduleProgress.length > 0 then
        jsRound ((moduleProgress.map (fun p => p.best_score.getD 0)).sum /
          moduleProgress.length)
      else 0,
    totalSessions := moduleSessions.length,
    totalMaterials := moduleMaterials.length,
    needRemedial := moduleProgress.countP (fun p => p.needs_remedial),
    sessionsActiveRecall := moduleSessions.countP (fun s => s.session_type == "active_recall"),
    sessionsPomodoro := moduleSessions.countP (fun s => s.session_type == "pomodoro"),
    sessionsFeynman := moduleSessions.countP (fun s => s.session_type == "feynman"),
    sessionsRetrievalPractice :=
      moduleSessions.countP (fun s => s.session_type == "retrieval_practice"),
    materialIds := moduleMaterials.map (fun mat => mat.id) }

/-- One entry of `courseAnalysis` (lines 173-236). -/
def courseReport (includeDetails : Bool) (modules : List EModule)
    (materials : List EMaterial) (userProgress : List EProgress)
    (allSessions : List ESession) (c : ECourse) : CourseReport :=
  let courseModules := modules.filter (fun m => m.course_id == c.id)
  let courseMats := materials.filter
    (fun mat => courseModules.any (fun md => md.id == mat.module_id))
  let courseProgress := userProgress.filter
    (fun p => courseModules.any (fun md => md.id == p.module_id))
  let courseSessions := allSessions.filter
    (fun s => courseModules.any (fun md => md.id == s.module_id))
  let moduleAnalysis := courseModules.map (moduleReport courseProgress courseSessions courseMats)
  { id := c.id, title := c.title, description := c.description, status := c.status,
    totalModules := courseModules.length,
    totalMaterials := courseMats.length,
    totalStudents := ((courseProgress.map (fun p => p.user_id)).foldl setAdd []).length,
    totalSessions := courseSessions.length,
    averageScore :=
      if courseProgress.length > 0 then
        jsRound ((courseProgress.map (fun p => p.best_score.getD 0)).sum /
          courseProgress.length)
      else 0,
    completionRate :=
      if courseProgress.length > 0 then
        jsRound (((courseProgress.countP (fun p => p.passed)) : ℚ) /
          courseProgress.length * 100)
      else 0,
    modules :=
      if includeDetails then ModulesField.details moduleAnalysis
      else ModulesField.count moduleAnalysis.length }

def courseAnalysis (includeDetails : Bool) (courses : List ECourse)
    (modules : List EModule) (materials : List EMaterial)
    (userProgress : List EProgress) (allSessions : List ESession) : List CourseReport :=
  courses.map (courseReport includeDetails modules materials userProgress allSessions)

/-! ## Properties of `setAdd` (JS `Set.add`) -/

theorem setAdd_nodup (s : List String) (x : String) (h : s.Nodup) :
    (setAdd s x).Nodup := by
  unfold setAdd
  by_cases hx : x ∈ s
  · rwa [if_pos hx]
  · rw [if_neg hx]
    simp [List.nodup_append, h, hx]

theorem mem_setAdd (s : List String) (x y : String) :
    y ∈ setAdd s x ↔ y ∈ s ∨ y = x := by
  unfold setAdd
  by_cases hx : x ∈ s
  · rw [if_pos hx]
    constructor
    · exact Or.inl
    · rintro (h | rfl)
      · exact h
      · exact hx
  · rw [if_neg hx]
    simp

theorem nodup_foldl_setAdd (l : List String) :
    ∀ s, s.Nodup → (l.foldl setAdd s).Nodup := by
  induction l with
  | nil => intro s h; simpa using h
  | cons x t ih => intro s h; exact ih _ (setAdd_nodup s x h)

theorem mem_foldl_setAdd (l : List String) (y : String) :
    ∀ s, y ∈ l.foldl setAdd s ↔ y ∈ s ∨ y ∈ l := by
  induction l with
  | nil => intro s; simp
  | cons x t ih =>
    intro s
    rw [List.foldl_cons, ih, mem_setAdd]
    simp only [List.mem_cons]
    tauto

/-- The size of the `Set` built from a list is the number of distinct
elements. -/
theorem length_foldl_setAdd (l : List String) :
    (l.foldl setAdd []).length = l.toFinset.card := by
  have hnd := nodup_foldl_setAdd l [] List.nodup_nil
  have hmem : ∀ y, y ∈ l.foldl setAdd [] ↔ y ∈ l := by
    intro y
    simpa using mem_foldl_setAdd l y []
  have hfin : (l.foldl setAdd []).toFinset = l.toFinset := by
    apply Finset.ext
    intro y
    simp [List.mem_toFinset, hmem]
  rw [← List.toFinset_card_of_nodup hnd, hfin]

/-! ## Characterizing the grouped objects -/

/-- Folding a some-producing step from a `some` start. -/
theorem foldl_someStep {α V : Type} (step : α → Option V → V) (l : List α) :
    ∀ g : V, l.foldl (fun o x => some (step x o)) (some g) =
      some (l.foldl (fun g x => step x (some g)) g) := by
  induction l with
  | nil => intro g; rfl
  | cons x t ih => intro g; rw [List.foldl_cons, List.foldl_cons, ih]

/-- The occurrences contributing to the group stored under key `k`. -/
def keyOccs (data : List AnalyticsSession) (k : String) :
    List (String × Recommendation) :=
  (recOccurrences data).filter (fun p => recKey p.2 = k)

def foldBump (g₀ : RecGroup) (l : List (String × Recommendation)) : RecGroup :=
  l.foldl (fun g p => bumpGroup g p.1 p.2) g₀

theorem foldBump_frequency (l : List (String × Recommendation)) :
    ∀ g₀, (foldBump g₀ l).frequency = g₀.frequency + l.length := by
  induction l with
  | nil => intro g₀; simp [foldBump]
  | cons p t ih =>
    intro g₀
    have := ih (bumpGroup g₀ p.1 p.2)
    simp only [foldBump, List.foldl_cons] at this ⊢
    rw [this]
    simp [bumpGroup]
    omega

theorem foldBump_totalConfidence (l : List (String × Recommendation)) :
    ∀ g₀, (foldBump g₀ l).totalConfidence =
      g₀.totalConfidence + (l.map (fun p => jsOrQ p.2.confidence_score (7/10))).sum := by
  induction l with
  | nil => intro g₀; simp [foldBump]
  | cons p t ih =>
    intro g₀
    have := ih (bumpGroup g₀ p.1 p.2)
    simp only [foldBump, List.foldl_cons] at this ⊢
    rw [this]
    simp [bumpGroup]
    ring

theorem foldBump_affectedStudents (l : List (String × Recommendation)) :
    ∀ g₀, (foldBump g₀ l).affectedStudents =
      (l.map Prod.fst).foldl setAdd g₀.affectedStudents := by
  induction l with
  | nil => intro g₀; simp [foldBump]
  | cons p t ih =>
    intro g₀
    have := ih (bumpGroup g₀ p.1 p.2)
    simp only [foldBump, List.foldl_cons] at this ⊢
    rw [this]
    rfl

theorem foldBump_priority (l : List (String × Recommendation)) :
    ∀ g₀, (foldBump g₀ l).priority = g₀.priority := by
  induction l with
  | nil => intro g₀; simp [foldBump]
  | cons p t ih =>
    intro g₀
    have := ih (bumpGroup g₀ p.1 p.2)
    simp only [foldBump, List.foldl_cons] at this ⊢
    rw [this]
    rfl

theorem foldBump_type (l : List (String × Recommendation)) :
    ∀ g₀, (foldBump g₀ l).type = g₀.type := by
  induction l with
  | nil => intro g₀; simp [foldBump]
  | cons p t ih =>
    intro g₀
    have := ih (bumpGroup g₀ p.1 p.2)
    simp only [foldBump, List.foldl_cons] at this ⊢
    rw [this]
    rfl

theorem foldBump_title (l : List (String × Recommendation)) :
    ∀ g₀, (foldBump g₀ l).title = g₀.title := by
  induction l with
  | nil => intro g₀; simp [foldBump]
  | cons p t ih =>
    intro g₀
    have := ih (bumpGroup g₀ p.1 p.2)
    simp only [foldBump, List.foldl_cons] at this ⊢
    rw [this]
    rfl

/-- Lookup in `recommendationCounts` in terms of the occurrences keyed `k`. -/
theorem recommendationCounts_lookup (data : List AnalyticsSession) (k : String) :
    jsLookup (recommendationCounts data) k =
      match keyOccs data k with
      | [] => Option.none
      | p :: t => some (foldBump (bumpGroup (newGroup p.2) p.1 p.2) t) := by
  rw [recommendationCounts_eq_groupBy, jsLookup_groupBy]
  show ((keyOccs data k).foldl (fun o x => some (recStep x.1 x.2 o)) Option.none) = _
  cases hocc : keyOccs data k with
  | nil => rfl
  | cons p t =>
    rw [List.foldl_cons]
    show (t.foldl (fun o x => some (recStep x.1 x.2 o))
      (some (bumpGroup (newGroup p.2) p.1 p.2))) = _
    rw [foldl_someStep]
    rfl

/-- Everything claim C3/C4 needs about a stored recommendation group. -/
theorem recGroup_spec (data : List AnalyticsSession) (k : String) (g : RecGroup)
    (h : (k, g) ∈ recommendationCounts data) :
    keyOccs data k ≠ [] ∧
    g.frequency = (keyOccs data k).length ∧
    g.totalConfidence =
      ((keyOccs data k).map (fun p => jsOrQ p.2.confidence_score (7/10))).sum ∧
    g.affectedStudents.length = ((keyOccs data k).map Prod.fst).toFinset.card ∧
    (∀ p t, keyOccs data k = p :: t →
      g.priority = jsOrZ p.2.priority 1 ∧ g.type = p.2.type ∧ g.title = p.2.title) := by
  have hlk : jsLookup (recommendationCounts data) k = some g := by
    rw [recommendationCounts_eq_groupBy] at h ⊢
    exact (mem_groupBy_iff _ _ _ _ _).mp h
  rw [recommendationCounts_lookup] at hlk
  cases hocc : keyOccs data k with
  | nil => rw [hocc] at hlk; simp at hlk
  | cons p t =>
    rw [hocc] at hlk
    simp only [Option.some.injEq] at hlk
    subst hlk
    refine ⟨by simp, ?_, ?_, ?_, ?_⟩
    · rw [foldBump_frequency]
      simp only [List.length_cons]
      show (newGroup p.2).frequency + 1 + t.length = t.length + 1
      simp [newGroup]
      omega
    · rw [foldBump_totalConfidence]
      simp [bumpGroup, newGroup]
    · rw [foldBump_affectedStudents]
      have hbase : (bumpGroup (newGroup p.2) p.1 p.2).affectedStudents = setAdd [] p.1 := rfl
      rw [hbase]
      have : (t.map Prod.fst).foldl setAdd (setAdd [] p.1) =
          ((p :: t).map Prod.fst).foldl setAdd [] := by
        simp
      rw [this, length_foldl_setAdd]
    · intro q u hqu
      cases hqu
      refine ⟨?_, ?_, ?_⟩
      · rw [foldBump_priority]; rfl
      · rw [foldBump_type]; rfl
      · rw [foldBump_title]; rfl

/-! ## Characterizing `studentAnalytics` -/

/-- All recommendations attached to a student's analytics rows, in row
order. -/
def studentRecs (data : List AnalyticsSession) (uid : String) : List Recommendation :=
  (data.filter (fun s => s.user_id = uid)).flatMap (fun s => s.recommendations.getD [])

def foldStudents (a₀ : StudentAgg) (l : List AnalyticsSession) : StudentAgg :=
  l.foldl bumpStudent a₀

theorem foldStudents_sessions (l : List AnalyticsSession) :
    ∀ a₀, (foldStudents a₀ l).sessions = a₀.sessions ++ l := by
  induction l with
  | nil => intro a₀; simp [foldStudents]
  | cons s t ih =>
    intro a₀
    have := ih (bumpStudent a₀ s)
    simp only [foldStudents, List.foldl_cons] at this ⊢
    rw [this]
    have hb : (bumpStudent a₀ s).sessions = a₀.sessions ++ [s] := by
      unfold bumpStudent
      cases s.recommendations <;> rfl
    rw [hb]
    simp

theorem foldStudents_high (l : List AnalyticsSession) :
    ∀ a₀, (foldStudents a₀ l).highPriorityIssues =
      a₀.highPriorityIssues +
        ((l.flatMap (fun s => s.recommendations.getD [])).countP isHighPriority) := by
  induction l with
  | nil => intro a₀; simp [foldStudents]
  | cons s t ih =>
    intro a₀
    have := ih (bumpStudent a₀ s)
    simp only [foldStudents, List.foldl_cons] at this ⊢
    rw [this]
    have hb : (bumpStudent a₀ s).highPriorityIssues =
        a₀.highPriorityIssues + (s.recommendations.getD []).countP isHighPriority := by
      unfold bumpStudent
      cases s.recommendations <;> simp
    rw [hb, List.flatMap_cons, List.countP_append]
    omega

theorem foldStudents_critical (l : List AnalyticsSession) :
    ∀ a₀, (foldStudents a₀ l).criticalIssues =
      a₀.criticalIssues +
        ((l.flatMap (fun s => s.recommendations.getD [])).countP isCritical) := by
  induction l with
  | nil => intro a₀; simp [foldStudents]
  | cons s t ih =>
    intro a₀
    have := ih (bumpStudent a₀ s)
    simp only [foldStudents, List.foldl_cons] at this ⊢
    rw [this]
    have hb : (bumpStudent a₀ s).criticalIssues =
        a₀.criticalIssues + (s.recommendations.getD []).countP isCritical := by
      unfold bumpStudent
      cases s.recommendations <;> simp
    rw [hb, List.flatMap_cons, List.countP_append]
    omega

/-- Lookup in `studentAnalytics` in terms of the student's own rows. -/
theorem studentAnalytics_lookup (data : List AnalyticsSession) (uid : String) :
    jsLookup (studentAnalytics data) uid =
      match data.filter (fun s => s.user_id = uid) with
      | [] => Option.none
      | s :: t => some (foldStudents (bumpStudent ⟨[], 0, 0, 0⟩ s) t) := by
  rw [studentAnalytics, jsLookup_groupBy]
  show ((data.filter (fun s => s.user_id = uid)).foldl
    (fun o x => some (studentStep x o)) Option.none) = _
  cases hf : data.filter (fun s => s.user_id = uid) with
  | nil => rfl
  | cons s t =>
    rw [List.foldl_cons]
    show (t.foldl (fun o x => some (studentStep x o))
      (some (bumpStudent ⟨[], 0, 0, 0⟩ s))) = _
    rw [foldl_someStep]
    rfl

/-- Everything claims C2/C4/C10 need about a student's accumulator. -/
theorem studentAgg_spec (data : List AnalyticsSession) (uid : String) (a : StudentAgg)
    (h : (uid, a) ∈ studentAnalytics data) :
    a.sessions = data.filter (fun s => s.user_id = uid) ∧
    a.highPriorityIssues = (studentRecs data uid).countP isHighPriority ∧
    a.criticalIssues = (studentRecs data uid).countP isCritical := by
  have hlk : jsLookup (studentAnalytics data) uid = some a := by
    rw [studentAnalytics] at h ⊢
    exact (mem_groupBy_iff _ _ _ _ _).mp h
  rw [studentAnalytics_lookup] at hlk
  cases hf : data.filter (fun s => s.user_id = uid) with
  | nil => rw [hf] at hlk; simp at hlk
  | cons s t =>
    rw [hf] at hlk
    simp only [Option.some.injEq] at hlk
    subst hlk
    refine ⟨?_, ?_, ?_⟩
    · rw [foldStudents_sessions]
      have hb : (bumpStudent ⟨[], 0, 0, 0⟩ s).sessions = [s] := by
        unfold bumpStudent
        cases s.recommendations <;> rfl
      rw [hb]
      rfl
    · rw [foldStudents_high]
      have hb : (bumpStudent ⟨[], 0, 0, 0⟩ s).highPriorityIssues =
          (s.recommendations.getD []).countP isHighPriority := by
        unfold bumpStudent
        cases s.recommendations <;> simp
      rw [hb, studentRecs, hf, List.flatMap_cons, List.countP_append]
    · rw [foldStudents_critical]
      have hb : (bumpStudent ⟨[], 0, 0, 0⟩ s).criticalIssues =
          (s.recommendations.getD []).countP isCritical := by
        unfold bumpStudent
        cases s.recommendations <;> simp
      rw [hb, studentRecs, hf, List.flatMap_cons, List.countP_append]

/-! ## Characterizing `modulePerformanceMap` -/

theorem bumpModule_totalStudents (m : ModulePerf) (row : ModuleProgressRow) :
    (bumpModule m row).totalStudents = m.totalStudents + 1 := by
  unfold bumpModule
  dsimp only
  split_ifs <;> rfl

def foldModules (m₀ : ModulePerf) (l : List ModuleProgressRow) : ModulePerf :=
  l.foldl bumpModule m₀

theorem foldModules_totalStudents (l : List ModuleProgressRow) :
    ∀ m₀, (foldModules m₀ l).totalStudents = m₀.totalStudents + l.length := by
  induction l with
  | nil => intro m₀; simp [foldModules]
  | cons row t ih =>
    intro m₀
    have := ih (bumpModule m₀ row)
    simp only [foldModules, List.foldl_cons] at this ⊢
    rw [this, bumpModule_totalStudents]
    simp
    omega

/-- Lookup in `modulePerformanceMap` in terms of the module's own rows. -/
theorem modulePerformanceMap_lookup (rows : List ModuleProgressRow) (mid : String) :
    jsLookup (modulePerformanceMap rows) mid =
      match rows.filter (fun row => row.module_id = mid) with
      | [] => Option.none
      | row :: t =>
          some (foldModules (bumpModule ⟨row.moduleTitle, [], 0, 0, 0⟩ row) t) := by
  rw [modulePerformanceMap, jsLookup_groupBy]
  show ((rows.filter (fun row => row.module_id = mid)).foldl
    (fun o x => some (moduleStep x o)) Option.none) = _
  cases hf : rows.filter (fun row => row.module_id = mid) with
  | nil => rfl
  | cons row t =>
    rw [List.foldl_cons]
    show (t.foldl (fun o x => some (moduleStep x o))
      (some (bumpModule ⟨row.moduleTitle, [], 0, 0, 0⟩ row))) = _
    rw [foldl_someStep]
    rfl

/-- Every module that reaches the alert classifier has at least one
progress row counted. -/
theorem modulePerf_totalStudents_pos (rows : List ModuleProgressRow) (mid : String)
    (d : ModulePerf) (h : (mid, d) ∈ modulePerformanceMap rows) :
    0 < d.totalStudents := by
  have hlk : jsLookup (modulePerformanceMap rows) mid = some d := by
    rw [modulePerformanceMap] at h ⊢
    exact (mem_groupBy_iff _ _ _ _ _).mp h
  rw [modulePerformanceMap_lookup] at hlk
  cases hf : rows.filter (fun row => row.module_id = mid) with
  | nil => rw [hf] at hlk; simp at hlk
  | cons row t =>
    rw [hf] at hlk
    simp only [Option.some.injEq] at hlk
    subst hlk
    rw [foldModules_totalStudents, bumpModule_totalStudents]
    omega

/-! ## Claim C1 -/

/-- C1: for every module with at least one progress row, the alert
classification evaluates the threshold rules in order with first match
winning and no alert otherwise: `failureRate ≥ 30` gives type `critical`
with severity `high`; else `remedialRate ≥ 40` gives `warning`/`medium`;
else `avgScore < 70` gives `info`/`low`; the comparisons are on the
unrounded rates, and every produced alert is emitted in
`performanceAlerts`. -/
theorem alert_classification_first_match (rows : List ModuleProgressRow)
    (mid : String) (d : ModulePerf)
    (h : (mid, d) ∈ modulePerformanceMap rows) :
    0 < d.totalStudents ∧
    (failureRate d ≥ 30 →
      ∃ a, moduleAlert mid d = some a ∧ a.type = "critical" ∧ a.severity = "high") ∧
    (failureRate d < 30 → remedialRate d ≥ 40 →
      ∃ a, moduleAlert mid d = some a ∧ a.type = "warning" ∧ a.severity = "medium") ∧
    (failureRate d < 30 → remedialRate d < 40 → avgScore d < 70 →
      ∃ a, moduleAlert mid d = some a ∧ a.type = "info" ∧ a.severity = "low") ∧
    (failureRate d < 30 → remedialRate d < 40 → 70 ≤ avgScore d →
      moduleAlert mid d = Option.none) ∧
    (∀ a, moduleAlert mid d = some a → a ∈ performanceAlerts rows) := by
  refine ⟨modulePerf_totalStudents_pos rows mid d h, ?_, ?_, ?_, ?_, ?_⟩
  · intro h1
    rw [moduleAlert, if_pos h1]
    exact ⟨_, rfl, rfl, rfl⟩
  · intro h1 h2
    rw [moduleAlert, if_neg (by exact fun hc => absurd hc (not_le.mpr h1)), if_pos h2]
    exact ⟨_, rfl, rfl, rfl⟩
  · intro h1 h2 h3
    rw [moduleAlert, if_neg (by exact fun hc => absurd hc (not_le.mpr h1)),
      if_neg (by exact fun hc => absurd hc (not_le.mpr h2)), if_pos h3]
    exact ⟨_, rfl, rfl, rfl⟩
  · intro h1 h2 h3
    rw [moduleAlert, if_neg (by exact fun hc => absurd hc (not_le.mpr h1)),
      if_neg (by exact fun hc => absurd hc (not_le.mpr h2)),
      if_neg (not_lt.mpr h3)]
  · intro a ha
    rw [performanceAlerts, List.mem_filterMap]
    exact ⟨(mid, d), h, ha⟩

def c1Row (score : ℚ) (rem : Bool) : ModuleProgressRow :=
  ⟨"s", "m1", some score, "completed", rem, "Module One"⟩

/-- 20 students: 7 score 50 (failing), 3 score 65, 7 score 80 with the
remedial flag, 3 score 80 — failure rate 35 %, remedial rate 50 %. -/
def c1Rows : List ModuleProgressRow :=
  List.replicate 7 (c1Row 50 false) ++ List.replicate 3 (c1Row 65 false) ++
    List.replicate 7 (c1Row 80 true) ++ List.replicate 3 (c1Row 80 false)

def c1Stats : ModulePerf :=
  ⟨"Module One",
   List.replicate 7 (50 : ℚ) ++ List.replicate 3 65 ++ List.replicate 10 80,
   10, 7, 20⟩

/-- C1 witness: a module with `failureRate = 35` and `remedialRate = 50`
classifies `critical`, never `warning`. -/
theorem alert_classification_first_match_witness :
    (("m1", c1Stats) ∈ modulePerformanceMap c1Rows) ∧
    failureRate c1Stats = 35 ∧ remedialRate c1Stats = 50 ∧
    (∃ a, moduleAlert "m1" c1Stats = some a ∧ a.type = "critical" ∧
      a.severity = "high") := by
  have h := alert_classification_first_match c1Rows "m1" c1Stats (by decide)
  have hfr : failureRate c1Stats = 35 := by
    norm_num [failureRate, c1Stats]
  have hrr : remedialRate c1Stats = 50 := by
    norm_num [remedialRate, c1Stats]
  exact ⟨by decide, hfr, hrr, h.2.1 (by rw [hfr]; norm_num)⟩

/-! ## Claim C2 -/

/-- Membership in the intervention list, unfolded. -/
theorem mem_studentInterventions (data : List AnalyticsSession)
    (info : List StudentInfo) (e : Intervention) :
    e ∈ studentInterventions data info ↔
      ∃ p ∈ studentAnalytics data, ∃ st, studentMap info p.1 = some st ∧
        interventionLevel p.2 ≠ ILevel.none ∧ e = mkIntervention p.1 st p.2 := by
  unfold studentInterventions
  rw [List.mem_mergeSort, List.mem_filterMap]
  constructor
  · rintro ⟨p, hp, hf⟩
    cases hsm : studentMap info p.1 with
    | none => rw [hsm] at hf; simp at hf
    | some st =>
      rw [hsm] at hf
      dsimp only at hf
      by_cases hl : interventionLevel p.2 ≠ ILevel.none
      · rw [if_pos hl] at hf
        simp only [Option.some.injEq] at hf
        exact ⟨p, hp, st, hsm, hl, hf.symm⟩
      · rw [if_neg hl] at hf
        simp at hf
  · rintro ⟨p, hp, st, hsm, hl, rfl⟩
    refine ⟨p, hp, ?_⟩
    rw [hsm]
    dsimp only
    rw [if_pos hl]

theorem studentInterventions_sorted (data : List AnalyticsSession)
    (info : List StudentInfo) :
    (studentInterventions data info).Pairwise
      (fun x y => levelPriority x.interventionLevel ≤
        levelPriority y.interventionLevel) := by
  unfold studentInterventions
  refine List.Pairwise.imp (fun h => of_decide_eq_true h)
    (List.sorted_mergeSort ?_ ?_ _)
  · intro a b c hab hbc
    exact decide_eq_true (le_trans (of_decide_eq_true hab) (of_decide_eq_true hbc))
  · intro a b
    by_cases hab : levelPriority a.interventionLevel ≤ levelPriority b.interventionLevel
    · simp [hab]
    · simp [le_of_not_le hab]

/-- C2: for every student with analytics records, the intervention level is
first-match: `criticalIssues > 0` gives `urgent`; else
`highPriorityIssues ≥ 3` gives `high`; else `improvementTrend < -20` gives
`medium`; else the level is `none` and the student is excluded from the
output; the emitted list is sorted urgent-before-high-before-medium. -/
theorem intervention_first_match_and_sorted (data : List AnalyticsSession)
    (info : List StudentInfo) :
    (∀ uid a, (uid, a) ∈ studentAnalytics data →
      (a.criticalIssues > 0 → interventionLevel a = ILevel.urgent) ∧
      (a.criticalIssues = 0 → a.highPriorityIssues ≥ 3 →
        interventionLevel a = ILevel.high) ∧
      (a.criticalIssues = 0 → a.highPriorityIssues < 3 →
        improvementTrend a.sessions < -20 → interventionLevel a = ILevel.medium) ∧
      (a.criticalIssues = 0 → a.highPriorityIssues < 3 →
        ¬ improvementTrend a.sessions < -20 → interventionLevel a = ILevel.none) ∧
      (interventionLevel a = ILevel.none →
        ∀ e ∈ studentInterventions data info, e.studentId ≠ uid)) ∧
    (∀ e ∈ studentInterventions data info, e.interventionLevel ≠ ILevel.none) ∧
    (studentInterventions data info).Pairwise
      (fun x y => levelPriority x.interventionLevel ≤
        levelPriority y.interventionLevel) := by
  refine ⟨?_, ?_, studentInterventions_sorted data info⟩
  · intro uid a hmem
    refine ⟨?_, ?_, ?_, ?_, ?_⟩
    · intro h1
      rw [interventionLevel, if_pos h1]
    · intro h1 h2
      rw [interventionLevel, if_neg (by omega), if_pos h2]
    · intro h1 h2 h3
      rw [interventionLevel, if_neg (by omega), if_neg (by omega), if_pos h3]
    · intro h1 h2 h3
      rw [interventionLevel, if_neg (by omega), if_neg (by omega), if_neg h3]
    · intro hnone e he
      rcases (mem_studentInterventions data info e).mp he with
        ⟨p, hp, st, hsm, hl, rfl⟩
      intro hid
      have hid' : p.1 = uid := hid
      have h1 : jsLookup (studentAnalytics data) uid = some a := by
        rw [studentAnalytics] at hmem ⊢
        exact (mem_groupBy_iff _ _ _ _ _).mp hmem
      have h2 : jsLookup (studentAnalytics data) uid = some p.2 := by
        rw [studentAnalytics]
        apply (mem_groupBy_iff _ _ _ _ _).mp
        rw [← studentAnalytics, ← hid']
        exact hp
      rw [h1] at h2
      simp only [Option.some.injEq] at h2
      rw [← h2] at hl
      exact hl hnone
  · intro e he
    rcases (mem_studentInterventions data info e).mp he with
      ⟨p, hp, st, hsm, hl, rfl⟩
    exact hl

def c2Rec : Recommendation := ⟨"technique", "Try recall", "d", some "do", some 1, some 1⟩

def c2Sess : AnalyticsSession :=
  ⟨"u1", "feynman", 5, Option.none, Option.none, some [c2Rec]⟩

def c2Data : List AnalyticsSession := [c2Sess]

def c2Agg : StudentAgg := ⟨[c2Sess], 1, 1, 1⟩

/-- C2 witness: one priority-1 recommendation makes the student urgent. -/
theorem intervention_first_match_and_sorted_witness :
    (("u1", c2Agg) ∈ studentAnalytics c2Data) ∧ c2Agg.criticalIssues > 0 ∧
    interventionLevel c2Agg = ILevel.urgent := by
  have h := intervention_first_match_and_sorted c2Data []
  exact ⟨by decide, by decide, (h.1 "u1" c2Agg (by decide)).1 (by decide)⟩

/-! ## Claim C3 -/

def c3xRec1 : Recommendation := ⟨"a-b", "c", "d1", some "adv1", some 2, some 1⟩

def c3xRec2 : Recommendation := ⟨"a", "b-c", "d2", some "adv2", some 2, some 1⟩

def c3xData : List AnalyticsSession :=
  [⟨"u1", "x", 0, Option.none, Option.none, some [c3xRec1]⟩,
   ⟨"u2", "x", 0, Option.none, Option.none, some [c3xRec2]⟩]

def c3xGroup : RecGroup := ⟨"a-b", "c", "d1", some "adv1", 2, ["u1", "u2"], 2, 2⟩

/-- C3 counterexample: the merge key is the concatenated string
`type + "-" + title`, not the pair `(type, title)`: two occurrences with
*different* `(type, title)` pairs collide on the key `"a-b-c"` and are
merged into a single group of frequency 2, where the claim predicts two
groups of frequency 1. -/
theorem recommendation_dedup_pair_key_counterexample :
    (c3xRec1.type, c3xRec1.title) ≠ (c3xRec2.type, c3xRec2.title) ∧
    recKey c3xRec1 = recKey c3xRec2 ∧
    recommendationCounts c3xData = [("a-b-c", c3xGroup)] ∧
    c3xGroup.frequency = 2 := by
  refine ⟨by decide, by decide, ?_, by decide⟩
  show recommendationCounts c3xData = _
  simp only [recommendationCounts, c3xData, List.foldl_cons, List.foldl_nil]
  norm_num [jsObjUpsert, jsLookup, recStep, bumpGroup, newGroup, setAdd, jsOrQ,
    jsOrZ, recKey, c3xRec1, c3xRec2, c3xGroup]
  decide

/-- C3 (amended): deduplication groups occurrences by the *concatenated
string* `type + "-" + title` (distinct pairs may collide); for each stored
group, `frequency` is the number of its occurrences,
`affectedStudents.length` (the emitted `affectedStudentsCount`) is the
number of distinct contributing student ids, and the average confidence is
the arithmetic mean of the occurrences' confidence scores where a score
that is absent — or `0`, which JS `||` also replaces — counts as `0.7`. -/
theorem recommendation_dedup_grouping (data : List AnalyticsSession)
    (k : String) (g : RecGroup) (h : (k, g) ∈ recommendationCounts data) :
    g.frequency = (keyOccs data k).length ∧
    g.affectedStudents.length = ((keyOccs data k).map Prod.fst).toFinset.card ∧
    (0 < g.frequency →
      avgConfidence g =
        ((keyOccs data k).map (fun p => jsOrQ p.2.confidence_score (7/10))).sum /
          ((keyOccs data k).length : ℚ)) := by
  obtain ⟨hne, hfreq, hconf, hstud, hfirst⟩ := recGroup_spec data k g h
  refine ⟨hfreq, hstud, ?_⟩
  intro hpos
  rw [avgConfidence, if_pos hpos, hconf, hfreq]

def c3Rec1 : Recommendation := ⟨"practice", "Review", "d", some "a", some 2, some 1⟩

def c3Rec2 : Recommendation := ⟨"practice", "Review", "d", some "a", some 2, some 3⟩

def c3Data : List AnalyticsSession :=
  [⟨"u1", "x", 0, Option.none, Option.none, some [c3Rec1]⟩,
   ⟨"u2", "x", 0, Option.none, Option.none, some [c3Rec2]⟩]

def c3Group : RecGroup := ⟨"practice", "Review", "d", some "a", 2, ["u1", "u2"], 2, 4⟩

/-- C3 witness: two occurrences of the same `(type, title)` from two
different students merge to frequency 2, distinct-student count 2, and the
confidence is the mean `(1 + 3) / 2 = 2` of the two scores. -/
theorem recommendation_dedup_grouping_witness :
    ("practice-Review", c3Group) ∈ recommendationCounts c3Data ∧
    (c3Rec1.type, c3Rec1.title) = (c3Rec2.type, c3Rec2.title) ∧
    c3Group.frequency = 2 ∧ c3Group.affectedStudents.length = 2 ∧
    c3Group.frequency = (keyOccs c3Data "practice-Review").length ∧
    c3Group.affectedStudents.length =
      ((keyOccs c3Data "practice-Review").map Prod.fst).toFinset.card ∧
    avgConfidence c3Group = 2 := by
  have hmem : ("practice-Review", c3Group) ∈ recommendationCounts c3Data := by
    have he : recommendationCounts c3Data = [("practice-Review", c3Group)] := by
      simp only [recommendationCounts, c3Data, List.foldl_cons, List.foldl_nil]
      norm_num [jsObjUpsert, jsLookup, recStep, bumpGroup, newGroup, setAdd,
        jsOrQ, jsOrZ, recKey, c3Rec1, c3Rec2, c3Group]
      decide
    rw [he]
    exact List.mem_singleton.mpr rfl
  have h := recommendation_dedup_grouping c3Data "practice-Review" c3Group hmem
  refine ⟨hmem, by decide, by decide, by decide, h.1, h.2.1, ?_⟩
  norm_num [avgConfidence, c3Group]

/-! ## Claim C4 -/

def c4Rec : Recommendation := ⟨"t", "T", "d", some "a", Option.none, some 1⟩

def c4Sess : AnalyticsSession :=
  ⟨"u1", "x", 0, Option.none, Option.none, some [c4Rec]⟩

def c4Data : List AnalyticsSession := [c4Sess]

def c4Group : RecGroup := ⟨"t", "T", "d", some "a", 1, ["u1"], 1, 1⟩

/-- C4 counterexample: a recommendation with an absent `priority` is stored
with priority `1` (`rec.priority || 1`, line 198) in the deduplication
output — not `3` as the claim states. -/
theorem recommendation_priority_default_counterexample :
    c4Rec.priority = Option.none ∧
    recommendationCounts c4Data = [("t-T", c4Group)] ∧
    c4Group.priority = 1 ∧ (1 : ℤ) ≠ 3 := by
  refine ⟨rfl, ?_, by decide, by decide⟩
  simp only [recommendationCounts, c4Data, List.foldl_cons, List.foldl_nil]
  norm_num [jsObjUpsert, jsLookup, recStep, bumpGroup, newGroup, setAdd, jsOrQ,
    jsOrZ, recKey, c4Rec, c4Sess, c4Group]
  decide

/-- C4 (amended): an absent `priority` defaults to `1` (the first
occurrence's `rec.priority || 1`) in the deduplication output, while in
intervention counting a recommendation with an absent priority contributes
to neither `highPriorityIssues` nor `criticalIssues` (consistent with a
default greater than 2); an absent `confidence_score` defaults to `0.7`
throughout the confidence aggregation. -/
theorem recommendation_defaults (data : List AnalyticsSession) :
    (∀ k g, (k, g) ∈ recommendationCounts data →
      ∀ p t, keyOccs data k = p :: t → g.priority = jsOrZ p.2.priority 1) ∧
    (∀ r : Recommendation, r.priority = Option.none → jsOrZ r.priority 1 = 1) ∧
    (∀ k g, (k, g) ∈ recommendationCounts data →
      g.totalConfidence =
        ((keyOccs data k).map (fun p => jsOrQ p.2.confidence_score (7/10))).sum) ∧
    (∀ r : Recommendation, r.confidence_score = Option.none →
      jsOrQ r.confidence_score (7/10) = 7/10) ∧
    (∀ uid a, (uid, a) ∈ studentAnalytics data →
      a.highPriorityIssues = (studentRecs data uid).countP isHighPriority ∧
      a.criticalIssues = (studentRecs data uid).countP isCritical) ∧
    (∀ r : Recommendation, r.priority = Option.none →
      isHighPriority r = false ∧ isCritical r = false) := by
  refine ⟨?_, ?_, ?_, ?_, ?_, ?_⟩
  · intro k g h p t hocc
    exact ((recGroup_spec data k g h).2.2.2.2 p t hocc).1
  · intro r hr
    simp [jsOrZ, hr]
  · intro k g h
    exact (recGroup_spec data k g h).2.2.1
  · intro r hr
    simp [jsOrQ, hr]
  · intro uid a h
    exact ⟨(studentAgg_spec data uid a h).2.1, (studentAgg_spec data uid a h).2.2⟩
  · intro r hr
    exact ⟨by simp [isHighPriority, hr], by simp [isCritical, hr]⟩

def c4Agg : StudentAgg := ⟨[c4Sess], 1, 0, 0⟩

/-- C4 witness: the absent-priority recommendation gets display priority 1
and is counted in neither issue counter. -/
theorem recommendation_defaults_witness :
    ("t-T", c4Group) ∈ recommendationCounts c4Data ∧
    c4Rec.priority = Option.none ∧ c4Group.priority = 1 ∧
    ("u1", c4Agg) ∈ studentAnalytics c4Data ∧
    c4Agg.highPriorityIssues = 0 ∧ c4Agg.criticalIssues = 0 := by
  have h := recommendation_defaults c4Data
  have hmem : ("t-T", c4Group) ∈ recommendationCounts c4Data := by
    have he : recommendationCounts c4Data = [("t-T", c4Group)] := by
      simp only [recommendationCounts, c4Data, List.foldl_cons, List.foldl_nil]
      norm_num [jsObjUpsert, jsLookup, recStep, bumpGroup, newGroup, setAdd,
        jsOrQ, jsOrZ, recKey, c4Rec, c4Sess, c4Group]
      decide
    rw [he]
    exact List.mem_singleton.mpr rfl
  have hp : c4Group.priority = 1 := by
    have := h.1 "t-T" c4Group hmem ("u1", c4Rec) [] (by decide)
    rw [this]
    decide
  have hs : ("u1", c4Agg) ∈ studentAnalytics c4Data := by decide
  have hh := h.2.2.2.2.1 "u1" c4Agg hs
  exact ⟨hmem, rfl, hp, hs, hh.1.trans (by decide), hh.2.trans (by decide)⟩

/-! ## Claim C5 -/

/-- C5: an instructor with courses but an empty authorized student-id set
gets a successful response in which every derived entity is an empty list
or empty object, on both routes — no error and no partial report. -/
theorem empty_student_set_yields_empty_result (timeRange : String) (today : ℤ)
    (cs : List Course) (hcs : cs ≠ [])
    (ar : List TSession) (arAttempts : List ARAttempt)
    (pom : List TSession) (pomCycles : List PomCycle)
    (fey : List TSession) (feyExpl : List FExplanation)
    (ret : List TSession) (retAttempts : List RPAttempt)
    (analytics : Option (List AnalyticsSession))
    (adata : Option (List AnalyticsSession)) (sinfo : Option (List StudentInfo))
    (mprog : Option (List ModuleProgressRow))
    (ffb : Option (List FeynmanFeedback)) :
    studyTechniquesGET true true timeRange today (some cs) (Except.ok [])
      ar arAttempts pom pomCycles fey feyExpl ret retAttempts analytics =
      ApiResult.success emptyTechData ∧
    aiInsightsGET true true (some cs) (Except.ok []) adata sinfo mprog ffb =
      ApiResult.success emptyAIData ∧
    emptyTechData.activeRecallAnalytics = Option.none ∧
    emptyTechData.pomodoroAnalytics = Option.none ∧
    emptyTechData.feynmanAnalytics = Option.none ∧
    emptyTechData.retrievalPracticeAnalytics = Option.none ∧
    emptyTechData.techniqueComparison = [] ∧
    emptyTechData.timeBasedAnalysis = [] ∧
    emptyTechData.effectivenessMetrics = [] ∧
    emptyAIData.teachingRecommendations = [] ∧
    emptyAIData.studentInterventions = [] ∧
    emptyAIData.learningPatternInsights = [] ∧
    emptyAIData.performanceAlerts = [] ∧
    emptyAIData.contentOptimizationSuggestions = [] ∧
    emptyAIData.studyPlanRecommendations = [] ∧
    emptyAIData.classPerformanceInsights = [] := by
  refine ⟨?_, ?_, rfl, rfl, rfl, rfl, rfl, rfl, rfl, rfl, rfl, rfl, rfl, rfl,
    rfl, rfl⟩
  · rw [studyTechniquesGET.eq_def]
    simp [List.length_eq_zero, hcs]
  · rw [aiInsightsGET.eq_def]
    simp [List.length_eq_zero, hcs]

def c5Course : Course := ⟨"c1", "Course"⟩

/-- C5 witness at a concrete one-course, zero-student input. -/
theorem empty_student_set_yields_empty_result_witness :
    ([c5Course] ≠ ([] : List Course)) ∧
    studyTechniquesGET true true "month" 0 (some [c5Course]) (Except.ok [])
      [] [] [] [] [] [] [] [] Option.none = ApiResult.success emptyTechData ∧
    aiInsightsGET true true (some [c5Course]) (Except.ok []) Option.none
      Option.none Option.none Option.none = ApiResult.success emptyAIData := by
  have h := empty_student_set_yields_empty_result "month" 0 [c5Course]
    (by decide) [] [] [] [] [] [] [] [] Option.none Option.none Option.none
    Option.none Option.none
  exact ⟨by decide, h.1, h.2.1⟩

/-! ## Claim C6 -/

/-- C6: in the assembled course report, `includeDetails = false` makes the
course's `modules` field an integer count, `includeDetails = true` an array
of exactly that length; and a zero denominator (no progress rows for the
course) makes `averageScore` and `completionRate` both `0`. -/
theorem course_report_modules_shape (modules : List EModule)
    (materials : List EMaterial) (progress : List EProgress)
    (sessions : List ESession) (c : ECourse) :
    (courseReport false modules materials progress sessions c).modules =
      ModulesField.count (modules.filter (fun m => m.course_id == c.id)).length ∧
    (∃ l, (courseReport true modules materials progress sessions c).modules =
      ModulesField.details l ∧
      l.length = (modules.filter (fun m => m.course_id == c.id)).length) ∧
    (progress.filter (fun p => (modules.filter (fun m => m.course_id == c.id)).any
        (fun md => md.id == p.module_id)) = [] →
      (courseReport false modules materials progress sessions c).averageScore = 0 ∧
      (courseReport false modules materials progress sessions c).completionRate = 0 ∧
      (courseReport true modules materials progress sessions c).averageScore = 0 ∧
      (courseReport true modules materials progress sessions c).completionRate = 0) ∧
    (∀ d courses, courseAnalysis d courses modules materials progress sessions =
      courses.map (courseReport d modules materials progress sessions)) := by
  refine ⟨?_, ?_, ?_, fun d courses => rfl⟩
  · simp [courseReport]
  · refine ⟨(modules.filter (fun m => m.course_id == c.id)).map
      (moduleReport
        (progress.filter (fun p => (modules.filter (fun m => m.course_id == c.id)).any
          (fun md => md.id == p.module_id)))
        (sessions.filter (fun s => (modules.filter (fun m => m.course_id == c.id)).any
          (fun md => md.id == s.module_id)))
        (materials.filter (fun mat => (modules.filter (fun m => m.course_id == c.id)).any
          (fun md => md.id == mat.module_id)))), ?_, by simp⟩
    simp [courseReport]
  · intro h
    refine ⟨?_, ?_, ?_, ?_⟩ <;>
      (simp only [courseReport]; rw [h]; simp)

def c6Course : ECourse := ⟨"c1", "T", "D", "active"⟩

def c6Modules : List EModule :=
  [⟨"m1", "M1", "d", "c1", 1, 70⟩, ⟨"m2", "M2", "d", "c1", 2, 70⟩]

/-- C6 witness: two modules, no progress rows. -/
theorem course_report_modules_shape_witness :
    (courseReport false c6Modules [] [] [] c6Course).modules =
      ModulesField.count 2 ∧
    (courseReport false c6Modules [] [] [] c6Course).averageScore = 0 ∧
    (courseReport false c6Modules [] [] [] c6Course).completionRate = 0 := by
  have h := course_report_modules_shape c6Modules [] [] [] c6Course
  refine ⟨h.1.trans (by decide), ?_, ?_⟩
  · exact (h.2.2.1 (by decide)).1
  · exact (h.2.2.1 (by decide)).2.1

/-! ## Claim C7 -/

theorem jsRound_nonneg (q : ℚ) (h : 0 ≤ q) : 0 ≤ jsRound q := by
  rw [jsRound]
  apply Int.le_floor.mpr
  push_cast
  linarith

theorem jsRound_le_100 (q : ℚ) (h : q ≤ 100) : jsRound q ≤ 100 := by
  rw [jsRound]
  have h2 : ⌊q + 1/2⌋ ≤ ⌊(201/2 : ℚ)⌋ := Int.floor_le_floor (by linarith)
  have h3 : ⌊(201/2 : ℚ)⌋ = 100 := by
    rw [Int.floor_eq_iff]
    norm_num
  omega

theorem jsRound_zero : jsRound 0 = 0 := by
  rw [jsRound]
  rw [Int.floor_eq_iff]
  norm_num

/-- Sessions restricted to the authorized students give a distinct-user
count bounded by the roster size. -/
theorem userEngagement_le (studentIds : List String) (l : List TSession)
    (h : ∀ s ∈ l, s.user_id ∈ studentIds) :
    userEngagement l ≤ studentIds.length := by
  rw [userEngagement, length_foldl_setAdd]
  calc (l.map (fun s => s.user_id)).toFinset.card
      ≤ studentIds.toFinset.card := by
        apply Finset.card_le_card
        intro x hx
        simp only [List.mem_toFinset, List.mem_map] at hx ⊢
        obtain ⟨s, hs, rfl⟩ := hx
        exact h s hs
    _ ≤ studentIds.length := studentIds.toFinset_card_le

theorem mkTechniqueEntry_spec (studentIds : List String) (name : String)
    (l : List TSession) (h : ∀ s ∈ l, s.user_id ∈ studentIds) :
    0 ≤ (mkTechniqueEntry studentIds.length name l).adoptionRate ∧
    (mkTechniqueEntry studentIds.length name l).adoptionRate ≤ 100 ∧
    ((mkTechniqueEntry studentIds.length name l).users = 0 →
      (mkTechniqueEntry studentIds.length name l).adoptionRate = 0 ∧
      (mkTechniqueEntry studentIds.length name l).sessionsPerUser = 0) ∧
    (mkTechniqueEntry studentIds.length name l).adoptionRate =
      jsRound (100 * ((userEngagement l : ℕ) : ℚ) /
        ((max studentIds.length 1 : ℕ) : ℚ)) := by
  have hden : (0 : ℚ) < ((max studentIds.length 1 : ℕ) : ℚ) := by
    exact_mod_cast Nat.lt_of_lt_of_le Nat.zero_lt_one (le_max_right _ _)
  simp only [mkTechniqueEntry]
  refine ⟨?_, ?_, ?_, ?_⟩
  · apply jsRound_nonneg
    apply mul_nonneg _ (by norm_num)
    exact div_nonneg (by positivity) (le_of_lt hden)
  · apply jsRound_le_100
    have husers : ((userEngagement l : ℕ) : ℚ) ≤ ((max studentIds.length 1 : ℕ) : ℚ) := by
      have h1 := userEngagement_le studentIds l h
      exact_mod_cast le_trans h1 (le_max_left _ _)
    have hdiv : ((userEngagement l : ℕ) : ℚ) / ((max studentIds.length 1 : ℕ) : ℚ) ≤ 1 := by
      rw [div_le_one hden]
      exact husers
    have := mul_le_mul_of_nonneg_right hdiv (by norm_num : (0:ℚ) ≤ 100)
    simpa using this
  · intro hu
    rw [hu]
    constructor
    · push_cast
      rw [zero_div, zero_mul, jsRound_zero]
    · simp
  · congr 1
    ring

/-- C7: every technique-comparison entry has `adoptionRate` in `[0, 100]`;
an entry with `0` distinct users has `adoptionRate = 0` and
`sessionsPerUser = 0`; and both denominators are provably nonzero, so no
division by zero occurs. -/
theorem technique_comparison_adoption_safe (studentIds : List String)
    (ar pom fey ret : List TSession)
    (har : ∀ s ∈ ar, s.user_id ∈ studentIds)
    (hpom : ∀ s ∈ pom, s.user_id ∈ studentIds)
    (hfey : ∀ s ∈ fey, s.user_id ∈ studentIds)
    (hret : ∀ s ∈ ret, s.user_id ∈ studentIds) :
    (0 : ℚ) < ((max studentIds.length 1 : ℕ) : ℚ) ∧
    ∀ e ∈ techniqueComparison studentIds ar pom fey ret,
      0 ≤ e.adoptionRate ∧ e.adoptionRate ≤ 100 ∧
      (e.users = 0 → e.adoptionRate = 0 ∧ e.sessionsPerUser = 0) ∧
      e.adoptionRate = jsRound (100 * ((e.users : ℕ) : ℚ) /
        ((max studentIds.length 1 : ℕ) : ℚ)) ∧
      (e.users ≠ 0 → ((e.users : ℕ) : ℚ) ≠ 0) := by
  refine ⟨by exact_mod_cast Nat.lt_of_lt_of_le Nat.zero_lt_one (le_max_right _ _), ?_⟩
  intro e he
  rw [techniqueComparison, List.mem_mergeSort] at he
  simp only [List.mem_cons, List.not_mem_nil, or_false] at he
  have hcast : ∀ e' : TechniqueEntry, e'.users ≠ 0 → ((e'.users : ℕ) : ℚ) ≠ 0 := by
    intro e' hu
    exact_mod_cast hu
  rcases he with he | he | he | he
  · subst he
    obtain ⟨h1, h2, h3, h4⟩ := mkTechniqueEntry_spec studentIds "Active Recall" ar har
    exact ⟨h1, h2, h3, h4, hcast _⟩
  · subst he
    obtain ⟨h1, h2, h3, h4⟩ := mkTechniqueEntry_spec studentIds "Pomodoro" pom hpom
    exact ⟨h1, h2, h3, h4, hcast _⟩
  · subst he
    obtain ⟨h1, h2, h3, h4⟩ := mkTechniqueEntry_spec studentIds "Feynman" fey hfey
    exact ⟨h1, h2, h3, h4, hcast _⟩
  · subst he
    obtain ⟨h1, h2, h3, h4⟩ := mkTechniqueEntry_spec studentIds "Retrieval Practice" ret hret
    exact ⟨h1, h2, h3, h4, hcast _⟩

def c7Sess : TSession := ⟨"u1", "completed", 0⟩

/-- C7 witness: a technique with no users gets rate 0 and
sessions-per-user 0. -/
theorem technique_comparison_adoption_safe_witness :
    (mkTechniqueEntry (["u1"] : List String).length "Pomodoro" []).users = 0 ∧
    (mkTechniqueEntry (["u1"] : List String).length "Pomodoro" []).adoptionRate = 0 ∧
    (mkTechniqueEntry (["u1"] : List String).length "Pomodoro" []).sessionsPerUser = 0 := by
  have h := technique_comparison_adoption_safe ["u1"] [c7Sess] [] [] []
    (by decide) (by decide) (by decide) (by decide)
  have hmem : mkTechniqueEntry (["u1"] : List String).length "Pomodoro" [] ∈
      techniqueComparison ["u1"] [c7Sess] [] [] [] := by
    rw [techniqueComparison, List.mem_mergeSort]
    exact List.mem_cons_of_mem _ (List.mem_cons_self _ _)
  have hu : (mkTechniqueEntry (["u1"] : List String).length "Pomodoro" []).users = 0 := by
    decide
  obtain ⟨h1, h2, h3, h4, h5⟩ := h.2 _ hmem
  exact ⟨hu, (h3 hu).1, (h3 hu).2⟩

/-! ## Claim C8 -/

theorem timeBased_length (n : ℕ) (today : ℤ) (ar pom fey ret : List TSession) :
    (((List.range n).reverse).map
      (fun i : ℕ => mkDayBucket (today - (i : ℤ)) ar pom fey ret)).length = n := by
  simp

theorem timeBased_dates_nodup (n : ℕ) (today : ℤ)
    (ar pom fey ret : List TSession) :
    ((((List.range n).reverse).map
      (fun i : ℕ => mkDayBucket (today - (i : ℤ)) ar pom fey ret)).map
        (fun b => b.date)).Nodup := by
  rw [List.map_map]
  have heq : ((fun b : DayBucket => b.date) ∘
      (fun i : ℕ => mkDayBucket (today - (i : ℤ)) ar pom fey ret)) =
      fun i : ℕ => today - (i : ℤ) := by
    funext i
    rfl
  rw [heq]
  apply List.Nodup.map
  · intro i j hij
    have hij' : today - (i : ℤ) = today - (j : ℤ) := hij
    have : (i : ℤ) = (j : ℤ) := by omega
    exact_mod_cast this
  · exact List.nodup_reverse.mpr (List.nodup_range n)

theorem timeBased_coverage (n : ℕ) (today : ℤ)
    (ar pom fey ret : List TSession) (d : ℤ) :
    (∃ b ∈ ((List.range n).reverse).map
        (fun i : ℕ => mkDayBucket (today - (i : ℤ)) ar pom fey ret), b.date = d) ↔
      today - ((n : ℤ) - 1) ≤ d ∧ d ≤ today := by
  constructor
  · rintro ⟨b, hb, rfl⟩
    rw [List.mem_map] at hb
    obtain ⟨i, hi, rfl⟩ := hb
    rw [List.mem_reverse, List.mem_range] at hi
    show today - ((n : ℤ) - 1) ≤ (mkDayBucket (today - (i : ℤ)) ar pom fey ret).date ∧
      (mkDayBucket (today - (i : ℤ)) ar pom fey ret).date ≤ today
    have hdate : (mkDayBucket (today - (i : ℤ)) ar pom fey ret).date = today - (i : ℤ) := rfl
    rw [hdate]
    omega
  · rintro ⟨h1, h2⟩
    have hn : 0 < n := by
      by_contra hn0
      have : n = 0 := by omega
      subst this
      simp at h1 h2
      omega
    refine ⟨mkDayBucket d ar pom fey ret, ?_, rfl⟩
    rw [List.mem_map]
    refine ⟨(today - d).toNat, ?_, ?_⟩
    · rw [List.mem_reverse, List.mem_range]
      omega
    · have : ((today - d).toNat : ℤ) = today - d := by omega
      rw [this]
      congr 1
      omega

theorem timeBased_counts (n : ℕ) (today : ℤ) (ar pom fey ret : List TSession) :
    ∀ b ∈ ((List.range n).reverse).map
        (fun i : ℕ => mkDayBucket (today - (i : ℤ)) ar pom fey ret),
      b.activeRecall = ar.countP (fun s => s.createdDay == b.date) ∧
      b.pomodoro = pom.countP (fun s => s.createdDay == b.date) ∧
      b.feynman = fey.countP (fun s => s.createdDay == b.date) ∧
      b.retrievalPractice = ret.countP (fun s => s.createdDay == b.date) ∧
      b.total = b.activeRecall + b.pomodoro + b.feynman + b.retrievalPractice := by
  intro b hb
  rw [List.mem_map] at hb
  obtain ⟨i, _, rfl⟩ := hb
  exact ⟨rfl, rfl, rfl, rfl, rfl⟩

/-- C8: for each of the three range tokens the time-based analysis has
exactly `{week: 7, month: 30, quarter: 90}` buckets, one per calendar day
from `today - (days - 1)` to `today` inclusive (dense: a bucket exists for
a day iff the day is in the window, dates are pairwise distinct, and a
bucket's per-technique fields count exactly the sessions of its day, so
days with no sessions appear with counts 0), and each bucket's `total` is
the sum of its four per-technique counts. -/
theorem time_based_analysis_dense_buckets (today : ℤ)
    (ar pom fey ret : List TSession) (tr : String) (days : ℕ)
    (h : (tr, days) ∈ [("week", 7), ("month", 30), ("quarter", 90)]) :
    daysFor tr = days ∧
    (timeBasedAnalysis tr today ar pom fey ret).length = days ∧
    ((timeBasedAnalysis tr today ar pom fey ret).map (fun b => b.date)).Nodup ∧
    (∀ d : ℤ, (∃ b ∈ timeBasedAnalysis tr today ar pom fey ret, b.date = d) ↔
      today - ((days : ℤ) - 1) ≤ d ∧ d ≤ today) ∧
    (∀ b ∈ timeBasedAnalysis tr today ar pom fey ret,
      b.activeRecall = ar.countP (fun s => s.createdDay == b.date) ∧
      b.pomodoro = pom.countP (fun s => s.createdDay == b.date) ∧
      b.feynman = fey.countP (fun s => s.createdDay == b.date) ∧
      b.retrievalPractice = ret.countP (fun s => s.createdDay == b.date) ∧
      b.total = b.activeRecall + b.pomodoro + b.feynman + b.retrievalPractice) := by
  have hdays : daysFor tr = days := by
    simp only [List.mem_cons, List.not_mem_nil, or_false, Prod.mk.injEq] at h
    rcases h with ⟨rfl, rfl⟩ | ⟨rfl, rfl⟩ | ⟨rfl, rfl⟩ <;> rfl
  refine ⟨hdays, ?_, ?_, ?_, ?_⟩
  · rw [timeBasedAnalysis, hdays, timeBased_length]
  · rw [timeBasedAnalysis, hdays]
    exact timeBased_dates_nodup days today ar pom fey ret
  · intro d
    rw [timeBasedAnalysis, hdays]
    exact timeBased_coverage days today ar pom fey ret d
  · rw [timeBasedAnalysis, hdays]
    exact timeBased_counts days today ar pom fey ret

/-- C8 witness at the `week` token. -/
theorem time_based_analysis_dense_buckets_witness :
    (("week", 7) ∈ [("week", 7), ("month", 30), ("quarter", 90)]) ∧
    daysFor "week" = 7 ∧
    (timeBasedAnalysis "week" 0 [] [] [] []).length = 7 := by
  have h := time_based_analysis_dense_buckets 0 [] [] [] [] "week" 7 (by decide)
  exact ⟨by decide, h.1, h.2.1⟩

/-! ## Claim C9 -/

theorem recLe_iff (a b : TeachingRec) :
    recLe a b = true ↔
      a.priority < b.priority ∨
        (a.priority = b.priority ∧ b.frequency ≤ a.frequency) := by
  simp [recLe, Bool.or_eq_true, Bool.and_eq_true, decide_eq_true_eq, beq_iff_eq]

theorem pairwise_take_drop {α : Type} {R : α → α → Prop} {l : List α}
    (h : l.Pairwise R) (n : ℕ) :
    ∀ x ∈ l.take n, ∀ y ∈ l.drop n, R x y := by
  have h2 : (l.take n ++ l.drop n).Pairwise R := by
    rwa [List.take_append_drop]
  exact (List.pairwise_append.mp h2).2.2

/-- C9: the deduplicated list is ordered by ascending `priority` with ties
broken by descending `frequency`; the emitted top-10 slice is taken from
the sorted permutation of *all* aggregated groups (truncation after full
aggregation and sorting), so every emitted entry ranks at least as high as
every entry cut off. -/
theorem teaching_recommendations_sorted_truncated (data : List AnalyticsSession)
    (info : List StudentInfo) :
    (teachingRecommendations data info).Perm
      ((recommendationCounts data).map (fun p => mkTeachingRec info p.2)) ∧
    (teachingRecommendations data info).Pairwise
      (fun a b => a.priority < b.priority ∨
        (a.priority = b.priority ∧ b.frequency ≤ a.frequency)) ∧
    teachingRecommendationsTop data info =
      (teachingRecommendations data info).take 10 ∧
    (∀ x ∈ teachingRecommendationsTop data info,
      ∀ y ∈ (teachingRecommendations data info).drop 10,
        x.priority < y.priority ∨
          (x.priority = y.priority ∧ y.frequency ≤ x.frequency)) := by
  have hsorted : (teachingRecommendations data info).Pairwise
      (fun a b => recLe a b = true) := by
    rw [teachingRecommendations]
    apply List.sorted_mergeSort
    · intro a b c hab hbc
      rw [recLe_iff] at *
      omega
    · intro a b
      rw [Bool.or_eq_true, recLe_iff, recLe_iff]
      omega
  have hsorted' : (teachingRecommendations data info).Pairwise
      (fun a b => a.priority < b.priority ∨
        (a.priority = b.priority ∧ b.frequency ≤ a.frequency)) :=
    hsorted.imp (fun h => (recLe_iff _ _).mp h)
  refine ⟨List.mergeSort_perm _ _, hsorted', rfl, ?_⟩
  intro x hx y hy
  exact pairwise_take_drop hsorted' 10 x hx y hy

/-- C9 witness at the empty input. -/
theorem teaching_recommendations_sorted_truncated_witness :
    teachingRecommendationsTop [] [] = (teachingRecommendations [] []).take 10 ∧
    teachingRecommendations [] [] = [] := by
  have h := teaching_recommendations_sorted_truncated [] []
  refine ⟨h.2.2.1, ?_⟩
  simp [teachingRecommendations, recommendationCounts]

/-! ## Claim C10 -/

/-- The intervention level the rule computes for a student id. -/
def interventionLevelOf (data : List AnalyticsSession) (uid : String) : ILevel :=
  match jsLookup (studentAnalytics data) uid with
  | some a => interventionLevel a
  | Option.none => ILevel.none

/-- C10: a student with analytics records and a non-`none` computed
intervention level whose id is absent from the fetched student info is
silently omitted from `studentInterventions` — even with critical
issues. -/
theorem intervention_requires_student_info (data : List AnalyticsSession)
    (info : List StudentInfo) (uid : String)
    (_hrec : ∃ s ∈ data, s.user_id = uid)
    (_hlvl : interventionLevelOf data uid ≠ ILevel.none)
    (hmap : studentMap info uid = Option.none) :
    ∀ e ∈ studentInterventions data info, e.studentId ≠ uid := by
  intro e he
  rcases (mem_studentInterventions data info e).mp he with ⟨p, hp, st, hsm, hl, rfl⟩
  intro hid
  have hid' : p.1 = uid := hid
  rw [hid'] at hsm
  rw [hsm] at hmap
  exact Option.noConfusion hmap

def c10Rec : Recommendation := ⟨"t", "T", "d", some "a", some 1, some 1⟩

def c10Sess : AnalyticsSession :=
  ⟨"u1", "x", 0, Option.none, Option.none, some [c10Rec]⟩

def c10Data : List AnalyticsSession := [c10Sess]

def c10Entry : Intervention :=
  ⟨"u1", "Name", "e", ILevel.urgent, [], [], 0, 1, 0⟩

/-- C10 witness: the critical-issue student `u1` is absent from the fetched
student info, and no intervention mentioning `u1` is emitted. -/
theorem intervention_requires_student_info_witness :
    c10Sess ∈ c10Data ∧ c10Sess.user_id = "u1" ∧
    interventionLevelOf c10Data "u1" = ILevel.urgent ∧
    studentMap [] "u1" = Option.none ∧
    c10Entry.studentId = "u1" ∧
    c10Entry ∉ studentInterventions c10Data [] ∧
    studentInterventions c10Data [] = [] := by
  have h := intervention_requires_student_info c10Data [] "u1"
    ⟨c10Sess, by decide, rfl⟩ (by decide) rfl
  refine ⟨by decide, rfl, by decide, rfl, rfl, ?_, ?_⟩
  · intro hmem
    exact h c10Entry hmem rfl
  · simp [studentInterventions, studentAnalytics, jsGroupBy, jsObjUpsert,
      jsLookup, studentStep, bumpStudent, studentMap, c10Data, c10Sess]
